import Mathlib

/-!
Verification development for the zoom-hubspot-bridge repository.

The Python sources (src/main.py, src/zoom_client.py, src/hubspot_client.py,
src/backfill_from_2025_12_18.py) are shallowly embedded below.  External
HTTP collaborators (Zoom API, HubSpot API) are modelled by an `Env` record
that holds the responses the collaborators return during one webhook
delivery; the webhook handler itself is embedded as a pure function from
that environment (plus the CRM call store and the inbound payload) to a
response together with the list of CRM writes it performs.

Python value conventions used throughout:
  * an optional / possibly-absent dict entry is `Option _`;
  * Python truthiness of strings (`""` is falsy) is `pyTruthy` / `pyOrStr`;
  * `try: ... except: ...` around an external call is a `Fallible _`
    outcome supplied by the environment.
-/

/-- Python truthiness of an optional string: `None` and `""` are falsy. -/
def pyTruthy (o : Option String) : Bool :=
  match o with
  | none => false
  | some s => s ≠ ""

/-- Python `a or b` for an optional string `a` and a string default `b`. -/
def pyOrStr (a : Option String) (b : String) : String :=
  match a with
  | none => b
  | some s => if s = "" then b else s

/-- Python `a or b` on two optional strings (`None`/`""` falsy). -/
def pyOrOpt (a b : Option String) : Option String :=
  if pyTruthy a then a else b

/-- Outcome of an external call that the Python caller wraps in
`try`/`except`: either the returned value or a raised exception. -/
inductive Fallible (α : Type) where
  | ok (value : α)
  | error
  deriving DecidableEq, Repr

/-- Python `str.upper()` (ASCII; the ids and file types involved are
ASCII). -/
def strUpper (s : String) : String :=
  String.mk (s.toList.map Char.toUpper)

/-- Python `str.lower()` (ASCII). -/
def strLower (s : String) : String :=
  String.mk (s.toList.map Char.toLower)

/-- Python `str.strip()`: whitespace removed from both ends. -/
def strTrim (s : String) : String :=
  String.mk
    (((s.toList.dropWhile Char.isWhitespace).reverse.dropWhile Char.isWhitespace).reverse)

/-- Python digit-run parser used by `int(str)`: digits with single
underscores allowed strictly between digits. -/
def pyDigitsCore : List Char → Nat → Option Nat
  | [], acc => some acc
  | '_' :: c :: rest, acc =>
      if c.isDigit then pyDigitsCore rest (acc * 10 + (c.toNat - 48)) else none
  | '_' :: [], _ => none
  | c :: rest, acc =>
      if c.isDigit then pyDigitsCore rest (acc * 10 + (c.toNat - 48)) else none

/-- Nonempty digit string (first char must be a digit). -/
def pyNatOfChars : List Char → Option Nat
  | [] => none
  | c :: rest => if c.isDigit then pyDigitsCore rest (c.toNat - 48) else none

/-- Python `int(s)` on a string: surrounding whitespace stripped, optional
sign, decimal digits (single underscores between digits); `none` models the
`ValueError` raise.  (Non-ASCII digits are not represented.) -/
def pyInt (s : String) : Option Int :=
  match (strTrim s).toList with
  | '+' :: rest => (pyNatOfChars rest).map Int.ofNat
  | '-' :: rest => (pyNatOfChars rest).map (fun n => -(n : Int))
  | cs => (pyNatOfChars cs).map Int.ofNat

/-- Python `str.rstrip(chars)`: drop trailing characters in `chars`. -/
def pyRstrip (s : String) (chars : List Char) : String :=
  String.mk (((s.toList.reverse).dropWhile (fun c => chars.contains c)).reverse)


/-!  ## SHA-256 and HMAC (hashlib.sha256 / hmac.new(..).hexdigest())

The source signs and validates proxy links with
`hmac.new(secret, msg, hashlib.sha256).hexdigest()`.  SHA-256 is embedded
over `List Nat` byte strings with 32-bit words as `Nat` reduced mod 2^32.
The round constants are the standard ones: the first 32 bits of the
fractional parts of the cube roots (square roots) of the first 64 (8)
primes, computed here by integer cube/square roots. -/

/-- Truncation to 32 bits. -/
def w32 (n : Nat) : Nat := n % 4294967296

/-- Rotate right on 32 bits. -/
def rotr32 (x n : Nat) : Nat := w32 ((x >>> n) ||| (x <<< (32 - n)))

/-- Addition modulo 2^32. -/
def add32 (a b : Nat) : Nat := (a + b) % 4294967296

/-- Complement on 32 bits. -/
def not32 (x : Nat) : Nat := 4294967295 - w32 x

/-- Integer cube root by bisection (enough iterations for n < 2^105). -/
def icbrt (n : Nat) : Nat :=
  ((List.range 40).foldl
    (fun (lh : Nat × Nat) _ =>
      let mid := (lh.1 + lh.2) / 2
      if mid = lh.1 then lh
      else if mid ^ 3 ≤ n then (mid, lh.2) else (lh.1, mid))
    (0, 68719476736)).1

/-- The first 64 primes (for the SHA-256 round constants). -/
def first64Primes : List Nat :=
  [2, 3, 5, 7, 11, 13, 17, 19, 23, 29, 31, 37, 41, 43, 47, 53,
   59, 61, 67, 71, 73, 79, 83, 89, 97, 101, 103, 107, 109, 113, 127, 131,
   137, 139, 149, 151, 157, 163, 167, 173, 179, 181, 191, 193, 197, 199, 211, 223,
   227, 229, 233, 239, 241, 251, 257, 263, 269, 271, 277, 281, 283, 293, 307, 311]

/-- SHA-256 round constants: frac(cbrt p) * 2^32 for the first 64 primes. -/
def sha256K : List Nat :=
  first64Primes.map (fun p => icbrt (p * 2 ^ 96) % 4294967296)

/-- SHA-256 initial hash words: frac(sqrt p) * 2^32 for the first 8 primes. -/
def sha256H0 : List Nat :=
  [2, 3, 5, 7, 11, 13, 17, 19].map (fun p => Nat.sqrt (p * 2 ^ 64) % 4294967296)

def bigSigma0 (x : Nat) : Nat := (rotr32 x 2) ^^^ (rotr32 x 13) ^^^ (rotr32 x 22)
def bigSigma1 (x : Nat) : Nat := (rotr32 x 6) ^^^ (rotr32 x 11) ^^^ (rotr32 x 25)
def smallSigma0 (x : Nat) : Nat := (rotr32 x 7) ^^^ (rotr32 x 18) ^^^ (x >>> 3)
def smallSigma1 (x : Nat) : Nat := (rotr32 x 17) ^^^ (rotr32 x 19) ^^^ (x >>> 10)
def shaCh (x y z : Nat) : Nat := (x &&& y) ^^^ (not32 x &&& z)
def shaMaj (x y z : Nat) : Nat := (x &&& y) ^^^ (x &&& z) ^^^ (y &&& z)

/-- Big-endian 8-byte encoding of the bit length. -/
def lenBytes64 (n : Nat) : List Nat :=
  [(n >>> 56) % 256, (n >>> 48) % 256, (n >>> 40) % 256, (n >>> 32) % 256,
   (n >>> 24) % 256, (n >>> 16) % 256, (n >>> 8) % 256, n % 256]

/-- SHA-256 padding: append 0x80, zero bytes to 56 mod 64, then the
64-bit big-endian bit length. -/
def sha256Pad (msg : List Nat) : List Nat :=
  let L := msg.length
  msg ++ [128] ++ List.replicate ((119 - L % 64) % 64) 0 ++ lenBytes64 (8 * L)

/-- Split a byte string into 64-byte chunks. -/
def toChunks (l : List Nat) : List (List Nat) :=
  if h : l = [] then []
  else
    have : (l.drop 64).length < l.length := by
      have hlen : 0 < l.length := List.length_pos.mpr h
      simp only [List.length_drop]
      omega
    l.take 64 :: toChunks (l.drop 64)
termination_by l.length

/-- The 16 big-endian 32-bit words of one 64-byte chunk. -/
def chunkWords (chunk : List Nat) : List Nat :=
  (List.range 16).map (fun i =>
    (chunk.getD (4 * i) 0) <<< 24 + (chunk.getD (4 * i + 1) 0) <<< 16 +
    (chunk.getD (4 * i + 2) 0) <<< 8 + chunk.getD (4 * i + 3) 0)

/-- Extend the 16 schedule words to 64. -/
def extendSchedule (ws : List Nat) : List Nat :=
  (List.range 48).foldl
    (fun acc i =>
      acc ++ [add32 (add32 (acc.getD i 0) (smallSigma0 (acc.getD (i + 1) 0)))
                    (add32 (acc.getD (i + 9) 0) (smallSigma1 (acc.getD (i + 14) 0)))])
    ws

/-- The eight 32-bit hash state words. -/
structure Hash8 where
  a : Nat
  b : Nat
  c : Nat
  d : Nat
  e : Nat
  f : Nat
  g : Nat
  h : Nat
  deriving DecidableEq, Repr

/-- One SHA-256 compression round. -/
def sha256Round (s : Hash8) (kw : Nat × Nat) : Hash8 :=
  let t1 := add32 s.h (add32 (bigSigma1 s.e) (add32 (shaCh s.e s.f s.g) (add32 kw.1 kw.2)))
  let t2 := add32 (bigSigma0 s.a) (shaMaj s.a s.b s.c)
  ⟨add32 t1 t2, s.a, s.b, s.c, add32 s.d t1, s.e, s.f, s.g⟩

/-- Compress one 64-byte chunk into the running hash. -/
def compressChunk (H : Hash8) (chunk : List Nat) : Hash8 :=
  let ws := extendSchedule (chunkWords chunk)
  let f := (sha256K.zip ws).foldl sha256Round H
  ⟨add32 H.a f.a, add32 H.b f.b, add32 H.c f.c, add32 H.d f.d,
   add32 H.e f.e, add32 H.f f.f, add32 H.g f.g, add32 H.h f.h⟩

/-- Big-endian bytes of one 32-bit word. -/
def wordBytes (w : Nat) : List Nat :=
  [(w >>> 24) % 256, (w >>> 16) % 256, (w >>> 8) % 256, w % 256]

/-- SHA-256 digest (32 bytes) of a byte string. -/
def sha256Bytes (msg : List Nat) : List Nat :=
  let H := (toChunks (sha256Pad msg)).foldl compressChunk
    ⟨sha256H0.getD 0 0, sha256H0.getD 1 0, sha256H0.getD 2 0, sha256H0.getD 3 0,
     sha256H0.getD 4 0, sha256H0.getD 5 0, sha256H0.getD 6 0, sha256H0.getD 7 0⟩
  wordBytes H.a ++ wordBytes H.b ++ wordBytes H.c ++ wordBytes H.d ++
  wordBytes H.e ++ wordBytes H.f ++ wordBytes H.g ++ wordBytes H.h

/-- Lowercase hex character of a value below 16. -/
def hexChar (n : Nat) : Char :=
  if n < 10 then Char.ofNat (48 + n) else Char.ofNat (87 + n)

/-- Lowercase hex characters of a byte string (two per byte). -/
def bytesToHexChars (l : List Nat) : List Char :=
  l.foldr (fun b acc => hexChar (b / 16 % 16) :: hexChar (b % 16) :: acc) []

/-- Python `.hexdigest()`: lowercase hex string of a byte string. -/
def bytesToHex (l : List Nat) : String :=
  String.mk (bytesToHexChars l)

/-- UTF-8 bytes of a string (`str.encode("utf-8")`). -/
def strBytes (s : String) : List Nat :=
  s.toUTF8.toList.map (fun b => b.toNat)

/-- HMAC-SHA256 over byte strings (RFC 2104, block size 64), as computed by
Python's `hmac.new(key, msg, hashlib.sha256)`. -/
def hmacSha256 (key msg : List Nat) : List Nat :=
  let k1 := if 64 < key.length then sha256Bytes key else key
  let k2 := k1 ++ List.replicate (64 - k1.length) 0
  sha256Bytes ((k2.map (fun b => b ^^^ 92)) ++
    sha256Bytes ((k2.map (fun b => b ^^^ 54)) ++ msg))

/-- Python `hmac.new(key.encode("utf-8"), msg.encode("utf-8"), hashlib.sha256).hexdigest()`. -/
def hmacSha256Hex (key msg : String) : String :=
  bytesToHex (hmacSha256 (strBytes key) (strBytes msg))

/-!  ## Signed proxy token (src/main.py lines 121-154)

`_proxy_sig` signs the concatenation `meeting_id:file_id:exp` with the
service's `MEDIA_PROXY_SECRET`; `recordings_proxy` checks expiry first and
then compares the recomputed signature with `hmac.compare_digest` (modelled
as string equality; `compare_digest` differs only in timing).  The missing
secret raises HTTP 500 inside `_proxy_sig`; in the endpoint model this is
the `configError` outcome, checked after expiry exactly as in the source.
`mac` abstracts the `hmac.new(...).hexdigest()` call so that properties can
also be stated for an arbitrary keyed hash; the source instantiates it with
HMAC-SHA256 (`hmacSha256Hex`). -/

/-- The signed message `f"{meeting_id}:{file_id}:{exp}"`. -/
def proxyMsg (meeting_id file_id : String) (exp : Int) : String :=
  meeting_id ++ ":" ++ file_id ++ ":" ++ toString exp

/-- The `_proxy_sig` computation with the keyed hash abstracted. -/
def proxySigWith (mac : String → String → String)
    (secret meeting_id file_id : String) (exp : Int) : String :=
  mac secret (proxyMsg meeting_id file_id exp)

/-- src/main.py `_proxy_sig` (assuming the secret is configured; the
endpoint model below handles the unconfigured-secret 500). -/
def proxySig (secret meeting_id file_id : String) (exp : Int) : String :=
  proxySigWith hmacSha256Hex secret meeting_id file_id exp

/-- Outcome of the validation prefix of the `/recordings/proxy` endpoint. -/
inductive ProxyCheck where
  | expired
  | configError
  | badSignature
  | ok
  deriving DecidableEq, Repr

/-- Expiry and signature validation of `recordings_proxy`
(src/main.py lines 148-154), keyed hash abstracted. -/
def recordingsProxyAuthWith (mac : String → String → String)
    (secret meeting_id file_id : String) (exp : Int) (sig : String)
    (now : Int) : ProxyCheck :=
  if exp < now then .expired
  else if secret = "" then .configError
  else if proxySigWith mac secret meeting_id file_id exp = sig then .ok
  else .badSignature

/-- Expiry and signature validation of `recordings_proxy` with the
source's HMAC-SHA256. -/
def recordingsProxyAuth (secret meeting_id file_id : String) (exp : Int)
    (sig : String) (now : Int) : ProxyCheck :=
  recordingsProxyAuthWith hmacSha256Hex secret meeting_id file_id exp sig now

/-!  ## Recording files and the two media selectors -/

/-- A raw size value as found in a Zoom payload: an integer or a string
(`none` at the field means the key is absent). -/
inductive SizeVal where
  | int (n : Int)
  | str (s : String)
  deriving DecidableEq, Repr

/-- One recording artifact dict from a Zoom payload.  (The webhook selector
additionally drops non-dict list entries with `isinstance(f, dict)`; the
model quantifies over lists of dicts.) -/
structure RecordingFile where
  id : Option String
  file_type : Option String
  file_extension : Option String
  recording_type : Option String
  file_size : Option SizeVal
  download_url : Option String
  play_url : Option String
  deriving DecidableEq, Repr

/-- File types excluded by the webhook selector. -/
def EXCLUDED_FILE_TYPES : List String :=
  ["TRANSCRIPT", "SUMMARY", "TIMELINE", "CHAT", "CC", "TXT", "VTT", "JSON"]

/-- Recording kinds excluded by both selector paths. -/
def EXCLUDED_RECORDING_TYPES : List String :=
  ["audio_transcript", "transcript", "summary", "timeline", "chat_file", "closed_caption"]

/-- The allowed media file types (src/main.py line 35 and
src/backfill_from_2025_12_18.py line 42). -/
def ALLOWED_MEDIA_FILE_TYPES : List String := ["M4A", "MP4", "MP3", "WAV"]

/-- Python `(f.get('file_type') or f.get('file_extension') or '').upper()`. -/
def mainFileType (f : RecordingFile) : String :=
  strUpper (pyOrStr f.file_type (pyOrStr f.file_extension ""))

/-- Python `(f.get('recording_type') or '').lower()`. -/
def mainRecType (f : RecordingFile) : String :=
  strLower (pyOrStr f.recording_type "")

/-- The webhook selector's media filter (src/main.py lines 79-90). -/
def mainMediaPred (f : RecordingFile) : Bool :=
  !(EXCLUDED_FILE_TYPES.contains (mainFileType f)) &&
  !(EXCLUDED_RECORDING_TYPES.contains (mainRecType f)) &&
  ALLOWED_MEDIA_FILE_TYPES.contains (mainFileType f)

/-- The webhook selector's fallback filter (src/main.py lines 100-105):
anything that is not transcript-ish by recording kind and has a URL. -/
def mainFallbackPred (f : RecordingFile) : Bool :=
  !(EXCLUDED_RECORDING_TYPES.contains (mainRecType f)) &&
  (pyTruthy f.download_url || pyTruthy f.play_url)

/-- Lower-cased audio_only check of the webhook selector. -/
def mainIsAudioOnly (f : RecordingFile) : Bool :=
  mainRecType f = "audio_only"

/-- src/main.py `_choose_media_recording_file` (lines 65-107). -/
def chooseMediaRecordingFile (recording_files : List RecordingFile) :
    Option RecordingFile :=
  if recording_files.isEmpty then none
  else
    let media := recording_files.filter mainMediaPred
    match media with
    | [] => recording_files.find? mainFallbackPred
    | m0 :: _ =>
      match media.find? mainIsAudioOnly with
      | some f => some f
      | none => some m0

/-- Python `(rf.get("file_type") or "").upper().strip()` (backfill filter). -/
def backfillFileType (f : RecordingFile) : String :=
  strTrim (strUpper (pyOrStr f.file_type ""))

/-- Allowed-type filter of the backfill selector. -/
def backfillAllowed (f : RecordingFile) : Bool :=
  ALLOWED_MEDIA_FILE_TYPES.contains (backfillFileType f)

/-- Exact audio_only check of the backfill selector
(`rf.get("recording_type") == "audio_only"`). -/
def backfillIsAudioOnly (f : RecordingFile) : Bool :=
  f.recording_type = some "audio_only"

/-- Python `(rf.get("file_type") or "").upper() == "M4A"`. -/
def backfillIsM4A (f : RecordingFile) : Bool :=
  strUpper (pyOrStr f.file_type "") = "M4A"

/-- Python `(rf.get("file_type") or "").upper() == "MP4"`. -/
def backfillIsMP4 (f : RecordingFile) : Bool :=
  strUpper (pyOrStr f.file_type "") = "MP4"

/-- The `size_or_big` key (src/backfill_from_2025_12_18.py lines 71-75):
`int(x.get("file_size") or 10**18)`, any failure also mapping to 10^18. -/
def sizeOrBig (f : RecordingFile) : Int :=
  match f.file_size with
  | none => 10 ^ 18
  | some (.int n) => if n = 0 then 10 ^ 18 else n
  | some (.str s) =>
    if s = "" then 10 ^ 18
    else match pyInt s with
      | some n => n
      | none => 10 ^ 18

/-- Stable insertion into a list sorted by an integer key. -/
def sortedInsert (key : RecordingFile → Int) (x : RecordingFile) :
    List RecordingFile → List RecordingFile
  | [] => [x]
  | y :: ys => if key x ≤ key y then x :: y :: ys else y :: sortedInsert key x ys

/-- Stable sort by an integer key.  Python's `list.sort(key=...)` is a
stable sort; any stable sort by the same key produces the same list, so
insertion sort is an exact model of it. -/
def stableSortByKey (key : RecordingFile → Int) (l : List RecordingFile) :
    List RecordingFile :=
  l.foldr (sortedInsert key) []

/-- Python `pick.get("download_url") or pick.get("play_url")`. -/
def urlOf (f : RecordingFile) : Option String :=
  pyOrOpt f.download_url f.play_url

/-- src/backfill_from_2025_12_18.py `choose_media_download_url`
(lines 45-81). -/
def chooseMediaDownloadUrl (recording_files : List RecordingFile) :
    Option String :=
  if recording_files.isEmpty then none
  else
    let media := recording_files.filter backfillAllowed
    if media.isEmpty then none
    else
      let audio_only := media.filter backfillIsAudioOnly
      match audio_only with
      | a0 :: _ =>
        let m4a := audio_only.filter backfillIsM4A
        urlOf (m4a.headD a0)
      | [] =>
        let mp4s := media.filter backfillIsMP4
        match mp4s with
        | [] =>
          match media with
          | p0 :: _ => urlOf p0
          | [] => none
        | _ :: _ =>
          match (stableSortByKey sizeOrBig mp4s).head? with
          | some pick => urlOf pick
          | none => none

/-!  ## Participants and the disposition resolver
(src/zoom_client.py lines 40-67 and src/main.py lines 260-270) -/

/-- One entry of the Zoom participants listing. -/
structure Participant where
  name : Option String
  user_email : Option String
  deriving DecidableEq, Repr

/-- The Zoom participants API response: HTTP status plus the parsed
`participants` list (`data.get("participants") or []`). -/
structure ParticipantsResponse where
  status : Nat
  participants : List Participant
  deriving DecidableEq, Repr

/-- Python `len(set((p.get("name"), p.get("user_email")) for p in participants))`:
the number of distinct (display name, account email) pairs. -/
def countUniqueParticipants (ps : List Participant) : Nat :=
  ((ps.map (fun p => (p.name, p.user_email))).dedup).length

/-- src/zoom_client.py `get_participant_count` (lines 40-67) applied to the
outcome of the HTTP call (`Fallible.error` models a raised token fetch or
transport error): 404 returns 1, other error statuses raise, success counts
unique (name, user_email) pairs. -/
def getParticipantCount (api : Fallible ParticipantsResponse) : Fallible Nat :=
  match api with
  | .error => .error
  | .ok r =>
    if r.status = 404 then .ok 1
    else if 400 ≤ r.status then .error
    else .ok (countUniqueParticipants r.participants)

/-- Call disposition GUIDs (src/main.py lines 32-33). -/
def DISPOSITION_CONNECTED : String := "f240bbac-87c9-4f6e-bf70-924b57d47db7"
def DISPOSITION_NO_ANSWER : String := "73a0d17f-1163-4015-bdd5-ec830791da20"

/-- src/main.py lines 261-270: disposition and participant count.  The
lookup runs only when the meeting uuid is truthy; a raised lookup error is
caught and the disposition stays `connected` with no count recorded. -/
def dispositionPhase (uuid : Option String)
    (api : Fallible ParticipantsResponse) : String × Option Nat :=
  if pyTruthy uuid then
    match getParticipantCount api with
    | .ok n => (if n ≤ 1 then DISPOSITION_NO_ANSWER else DISPOSITION_CONNECTED, some n)
    | .error => (DISPOSITION_CONNECTED, none)
  else (DISPOSITION_CONNECTED, none)

/-!  ## Deal stages (src/main.py lines 37-49) -/

def DEAL_STAGE_QUALIFIED : String := "1054943518"
def DEAL_STAGE_FOLLOWUP : String := "1054943519"
def DEAL_STAGE_SENT_CLIENT_AGREEMENT : String := "1054943520"
def DEAL_STAGE_AGREEMENT_SIGNED : String := "1054943521"
def DEAL_STAGE_CLOSED_LOST : String := "1054943524"
def DEAL_STAGE_CANCELLED : String := "1080046258"

def PROTECTED_DEAL_STAGES : List String :=
  [DEAL_STAGE_SENT_CLIENT_AGREEMENT, DEAL_STAGE_AGREEMENT_SIGNED, DEAL_STAGE_CANCELLED]

/-- A HubSpot deal as returned by the deal searches: its id and the
`dealstage` entry of its `properties` dict.  `some d` stands for a nonempty
deal dict (a `None` or empty-dict result is `none`, matching Python
truthiness of the `if latest_meeting_deal:` / `if contact_deal:` checks). -/
structure Deal where
  id : Option String
  dealstage : Option String
  deriving DecidableEq, Repr

/-- src/main.py `_stage_from_deal` (lines 305-309). -/
def stageFromDeal (deal : Option Deal) : Option String :=
  match deal with
  | none => none
  | some d => d.dealstage

/-- Python `stage in PROTECTED_DEAL_STAGES` (a `None` stage is never in the
set). -/
def stageProtected (stage : Option String) : Bool :=
  match stage with
  | none => false
  | some s => PROTECTED_DEAL_STAGES.contains s

/-- Catching wrapper: `try: v = await f() except: v = None` for a call
returning an optional deal. -/
def caughtDeal (r : Fallible (Option Deal)) : Option Deal :=
  match r with
  | .ok v => v
  | .error => none

/-- Catching wrapper for the optional contact-name lookup. -/
def caughtName (r : Fallible (Option String)) : Option String :=
  match r with
  | .ok v => v
  | .error => none

/-!  ## HubSpot meetings, call records and the CRM effect model -/

/-- The matched HubSpot meeting: its id and the searched properties. -/
structure Meeting where
  id : Option String
  hs_activity_type : Option String
  hubspot_owner_id : Option String
  hs_owner_id : Option String
  deriving DecidableEq, Repr

/-- The property dict of a created call record
(src/hubspot_client.py `create_call_for_meeting`, lines 121-180).
Optional fields model keys that the source sets only conditionally. -/
structure CallProps where
  hs_timestamp : Int
  hs_call_status : String
  hs_call_direction : String
  hs_call_recording_url : String
  hs_activity_type : String
  hs_call_title : String
  hs_call_body : String
  zoom_meeting_id : String
  integration_call : Bool
  hs_call_duration : Int
  hubspot_owner_id : Option String
  hs_call_disposition : Option String
  zoom_meeting_uuid : Option String
  deriving DecidableEq, Repr

/-- A call record held by the CRM: the id HubSpot assigned at creation plus
the stored properties. -/
structure CallRecord where
  id : Option String
  props : CallProps
  deriving DecidableEq, Repr

/-- One CRM write performed during a webhook delivery. -/
inductive Effect where
  | createCall (assignedId : Option String) (props : CallProps)
  | associateCallToContacts (callId : Option String) (contactIds : List String)
  | associateCallToDeals (callId : Option String) (dealIds : List String)
  | associateMeetingToDeals (meetingId : Option String) (dealIds : List String)
  | updateDealStage (dealId : String) (stage : String)
  | markMeetingCompleted (meetingId : Option String)
  deriving DecidableEq, Repr

/-- Outcome of one HTTP write by a hubspot_client writer: `.ok status` —
the POST returned and the writer saw this HTTP status (an error status is
only logged inside the writer, never raised); `.error` — the awaited POST
itself raised (e.g. a transport error or timeout), which propagates to the
caller since neither the writer nor its call sites in src/main.py catch it.
When a POST raises, no write is recorded as performed. -/
abbrev WriteOutcome := Fallible Nat

/-- src/hubspot_client.py `associate_call_to_contacts` (lines 183-196):
an empty contact list short-circuits before any HTTP call (so it can never
raise); otherwise the batch POST is made — an error status is only logged,
but a raised POST propagates (there is no `try`/`except` here or at
main.py line 295). -/
def associateCallToContacts (result : WriteOutcome) (callId : Option String)
    (contactIds : List String) : Fallible (List Effect) :=
  match contactIds with
  | [] => .ok []
  | _ :: _ =>
    match result with
    | .ok _status => .ok [.associateCallToContacts callId contactIds]
    | .error => .error

/-- src/hubspot_client.py `associate_call_to_deals` (lines 199-212), same
pattern as `associate_call_to_contacts`; its call sites (main.py lines 296
and 339) do not catch a raised POST either. -/
def associateCallToDeals (result : WriteOutcome) (callId : Option String)
    (dealIds : List String) : Fallible (List Effect) :=
  match dealIds with
  | [] => .ok []
  | _ :: _ =>
    match result with
    | .ok _status => .ok [.associateCallToDeals callId dealIds]
    | .error => .error

/-- Modelled from the spec: `associate_meeting_to_deals` is imported by
src/main.py from hubspot_client but is absent from src/hubspot_client.py.
Per the spec it "associates the discovered deal to ... the source activity";
following the sibling association writers in src, an HTTP error status is
only logged, while a raised POST propagates (main.py line 340 does not
catch). -/
def associateMeetingToDeals (result : WriteOutcome) (meetingId : Option String)
    (dealIds : List String) : Fallible (List Effect) :=
  match dealIds with
  | [] => .ok []
  | _ :: _ =>
    match result with
    | .ok _status => .ok [.associateMeetingToDeals meetingId dealIds]
    | .error => .error

/-- Modelled from the spec: `update_deal_stage` is imported by src/main.py
from hubspot_client but is absent from src/hubspot_client.py.  It issues
the stage-update write; following the sibling writers in src, an HTTP error
status is only logged, while a raised POST propagates — its call sites
(main.py lines 321 and 345) have no `try`/`except`. -/
def updateDealStage (result : WriteOutcome) (dealId stage : String) :
    Fallible (List Effect) :=
  match result with
  | .ok _status => .ok [.updateDealStage dealId stage]
  | .error => .error

/-- Write list of a successful `associate_call_to_contacts` call. -/
def assocCallContactsEffects (callId : Option String)
    (contactIds : List String) : List Effect :=
  match contactIds with
  | [] => []
  | _ :: _ => [.associateCallToContacts callId contactIds]

/-- Write list of a successful `associate_call_to_deals` call. -/
def assocCallDealsEffects (callId : Option String)
    (dealIds : List String) : List Effect :=
  match dealIds with
  | [] => []
  | _ :: _ => [.associateCallToDeals callId dealIds]

/-- Modelled from the spec: `mark_meeting_completed` is imported by
src/main.py from hubspot_client but is absent from src/hubspot_client.py.
Its call site wraps it in `try`/`except`; on a raised error no completed
write is recorded. -/
def markMeetingCompleted (result : Fallible Unit) (meetingId : Option String) :
    List Effect :=
  match result with
  | .ok _ => [.markMeetingCompleted meetingId]
  | .error => []

/-- Modelled from the spec: `find_existing_call_by_zoom_meeting_id` is
imported by src/main.py from hubspot_client but is absent from
src/hubspot_client.py.  Per the spec's idempotency guard it queries the CRM
for "an existing call record tagged with this session id"; the CRM call
store is searched for the first record whose `zoom_meeting_id` property is
the session id. -/
def findExistingCallByZoomMeetingId (calls : List CallRecord)
    (zoomMeetingId : String) : Option CallRecord :=
  calls.find? (fun c => c.props.zoom_meeting_id = zoomMeetingId)

/-!  ## Proxy URL construction and call-record synthesis -/

/-- Configuration surface relevant to the webhook flow (src/config.py);
an unset variable is the empty string. -/
structure Config where
  zoomWebhookSecretToken : String
  mediaProxySecret : String
  publicBaseUrl : String
  deriving DecidableEq, Repr

/-- Python `urllib.parse.quote(s)` with the default `safe='/'`: UTF-8 bytes,
unreserved characters and `/` kept, everything else percent-encoded with
uppercase hex. -/
def pyQuoteByte (b : Nat) : List Char :=
  if (65 ≤ b && b ≤ 90) || (97 ≤ b && b ≤ 122) || (48 ≤ b && b ≤ 57) ||
     b = 95 || b = 46 || b = 126 || b = 45 || b = 47 then
    [Char.ofNat b]
  else
    ['%', (if b / 16 < 10 then Char.ofNat (48 + b / 16) else Char.ofNat (55 + b / 16)),
     (if b % 16 < 10 then Char.ofNat (48 + b % 16) else Char.ofNat (55 + b % 16))]

def pyQuote (s : String) : String :=
  String.mk ((strBytes s).foldr (fun b acc => pyQuoteByte b ++ acc) [])

/-- src/main.py `_build_proxy_url` (lines 128-137), with the secret already
checked by the caller model. -/
def buildProxyUrl (cfg : Config) (meeting_id file_id : String) (exp : Int) :
    String :=
  cfg.publicBaseUrl ++ "/recordings/proxy" ++
  "?meeting_id=" ++ pyQuote meeting_id ++
  "&file_id=" ++ pyQuote file_id ++
  "&exp=" ++ toString exp ++
  "&sig=" ++ proxySig cfg.mediaProxySecret meeting_id file_id exp

/-- src/main.py `_zoom_encrypted_token` digest (line 113-118); the caller
model checks the missing-secret 500 separately. -/
def zoomEncryptedToken (secret plainToken : String) : String :=
  hmacSha256Hex secret plainToken

/-- src/main.py `_extract_duration_ms` (lines 52-62).  The payload duration
is minutes as a rational (covering the ints and floats Zoom sends; a
non-numeric payload value, which makes `float()` raise and the source
return 0, is not represented).  `int()` on the nonnegative product is the
floor. -/
def extractDurationMs (duration : Option ℚ) : Int :=
  match duration with
  | none => 0
  | some minutes => if minutes < 0 then 0 else ⌊minutes * 60000⌋

/-- src/hubspot_client.py call title synthesis (lines 141-146). -/
def callTitle (primaryContactName : Option String) (meetingType : Option String) :
    String :=
  if pyTruthy primaryContactName then
    pyRstrip (strTrim ((pyOrStr primaryContactName "") ++ " – Zoom int – " ++
      pyOrStr meetingType "")) [' ', '–']
  else
    pyRstrip (strTrim ("Zoom int – " ++ pyOrStr meetingType "")) [' ', '–']

/-- src/hubspot_client.py `create_call_for_meeting` property construction
(lines 136-173).  `startEpochMs` is the value of
`_iso_to_epoch_ms(zoom_start_time)`; the datetime-library conversion is an
external collaborator supplied by the environment. -/
def createCallProps (meeting : Meeting) (meetingType : Option String)
    (recordingUrl : String) (zoomMeetingId : String)
    (zoomMeetingUuid : Option String) (startEpochMs : Int)
    (durationMs : Int) (disposition : String)
    (primaryContactName : Option String) : CallProps :=
  let ownerId := pyOrOpt meeting.hubspot_owner_id meeting.hs_owner_id
  { hs_timestamp := startEpochMs
    hs_call_status := "COMPLETED"
    hs_call_direction := "OUTBOUND"
    hs_call_recording_url := recordingUrl
    hs_activity_type := pyOrStr meetingType ""
    hs_call_title := callTitle primaryContactName meetingType
    hs_call_body := "Integration-created call record for Zoom meeting ID " ++
      zoomMeetingId ++
      ". This mirrors the HubSpot meeting activity and exists to attach recording + analysis."
    zoom_meeting_id := zoomMeetingId
    integration_call := true
    hs_call_duration := durationMs
    hubspot_owner_id := if pyTruthy ownerId then ownerId else none
    hs_call_disposition := if disposition = "" then none else some disposition
    zoom_meeting_uuid := if pyTruthy zoomMeetingUuid then zoomMeetingUuid else none }

/-!  ## The webhook orchestrator (src/main.py `zoom_recording_webhook`) -/

/-- The `payload.object` of a recording event. -/
structure ZoomObject where
  id : Option String
  uuid : Option String
  start_time : Option String
  duration : Option ℚ
  deriving DecidableEq, Repr

/-- The inbound webhook JSON envelope: `event`, the validation
`plainToken`, and the recording `object` (an absent nested dict is the
all-`none` object, matching `(payload.get("payload") or {}).get("object")
or {}`). -/
structure WebhookPayload where
  event : Option String
  plainToken : Option String
  obj : ZoomObject
  deriving DecidableEq, Repr

/-- Python `str(zoom_object.get("id") or "")`. -/
def zmidOf (payload : WebhookPayload) : String :=
  pyOrStr payload.obj.id ""

/-- The responses the external collaborators return during one delivery. -/
structure Env where
  /-- Zoom `get_meeting_recordings(...)["recording_files"] or []`. -/
  recordingFiles : List RecordingFile
  /-- The `search_meeting_by_zoom_id` result. -/
  searchMeeting : Option Meeting
  /-- The `get_meeting_contact_ids` result. -/
  contactIds : List String
  /-- The `get_meeting_deal_ids` result. -/
  dealIds : List String
  /-- The `get_contact_name(contact_ids[0])` outcome (call site catches). -/
  contactNameResult : Fallible (Option String)
  /-- Zoom participants HTTP response, or a raised token/transport error. -/
  participantsApi : Fallible ParticipantsResponse
  /-- The `get_latest_deal(deal_ids)` outcome (call site catches). -/
  latestMeetingDealResult : Fallible (Option Deal)
  /-- The `get_latest_deal_from_contacts(contact_ids)` outcome (call site catches). -/
  contactDealResult : Fallible (Option Deal)
  /-- The id the CRM assigned: `create_call_for_meeting(...)["id"]`. -/
  newCallId : Option String
  /-- Outcomes of the association / stage-update POSTs: a returned HTTP
  status (logged only) or a raised transport error (uncaught). -/
  assocContactsResult : WriteOutcome
  assocDealsResult : WriteOutcome
  assocMeetingDealsResult : WriteOutcome
  updateDealStageResult : WriteOutcome
  /-- The `mark_meeting_completed` outcome (call site catches). -/
  markCompletedResult : Fallible Unit
  /-- Python `int(time.time())`. -/
  now : Int
  /-- The value of `_iso_to_epoch_ms(zoom_start_time)` (datetime conversion). -/
  startEpochMs : Int
  deriving DecidableEq, Repr

/-- The handler's JSON response, one constructor per terminal state;
`unhandledException` stands for an exception that escapes the handler (an
uncaught raise from an association or stage-update POST), which the web
framework turns into an HTTP 500 instead of a JSON summary. -/
inductive WebhookResponse where
  | validation (plainToken encryptedToken : String)
  | httpError (status : Nat) (detail : String)
  | ignoredEvent (event : Option String)
  | ignoredNoMediaRecordingFile (zoomMeetingId : String)
  | ignoredNoRecordingFileId (zoomMeetingId : String)
  | ignoredNoMatchingMeeting (zoomMeetingId : String)
  | ignoredMissingActivityType (hubspotMeetingId : Option String) (zoomMeetingId : String)
  | duplicateIgnored (hubspotCallId : Option String)
  | ok (hubspotCallId : Option String) (participantCount : Option Nat)
       (disposition : String) (associatedContactIds associatedDealIds : List String)
       (updatedDealId updatedDealStage : Option String)
  | unhandledException
  deriving DecidableEq, Repr

/-- Whether a response is the normal success summary. -/
def WebhookResponse.isOk : WebhookResponse → Bool
  | .ok .. => true
  | _ => false

/-- Result of the deal-stage phase: the normal outcome carries
(updated_deal_id, updated_deal_stage) and the CRM writes performed; a
raised (uncaught) POST inside the phase carries the writes performed
before the raise. -/
inductive StageOutcome where
  | ok (updatedDealId updatedDealStage : Option String) (effects : List Effect)
  | raised (effects : List Effect)
  deriving DecidableEq, Repr

/-- The CRM writes a deal-stage phase outcome performed. -/
def stageEffects : StageOutcome → List Effect
  | .ok _ _ e => e
  | .raised e => e

/-- src/main.py lines 298-351: the deal-stage phase.  The two deal lookups
are caught at their call sites; the direct deal is considered first and the
contact fallback only when it yields nothing.  The association and
stage-update POSTs inside the phase (main.py lines 321, 339, 340, 345) are
not wrapped in `try`/`except`, so a raised POST escapes the phase. -/
def dealStagePhase (env : Env) (callId : Option String)
    (meetingId : Option String) : StageOutcome :=
  match caughtDeal env.latestMeetingDealResult with
  | some latest =>
    let stage := stageFromDeal (some latest)
    let dealId := pyOrStr latest.id ""
    if stageProtected stage then .ok none none []
    else if stage = some DEAL_STAGE_QUALIFIED then
      match updateDealStage env.updateDealStageResult dealId DEAL_STAGE_FOLLOWUP with
      | .ok e => .ok (some dealId) (some DEAL_STAGE_FOLLOWUP) e
      | .error => .raised []
    else .ok none none []
  | none =>
    match caughtDeal env.contactDealResult with
    | some contactDeal =>
      let dealId := pyOrStr contactDeal.id ""
      let stage := stageFromDeal (some contactDeal)
      match associateCallToDeals env.assocDealsResult callId [dealId] with
      | .error => .raised []
      | .ok a1 =>
        match associateMeetingToDeals env.assocMeetingDealsResult meetingId [dealId] with
        | .error => .raised a1
        | .ok a2 =>
          if stageProtected stage then .ok none none (a1 ++ a2)
          else if stage = some DEAL_STAGE_QUALIFIED ∨ stage = some DEAL_STAGE_CLOSED_LOST then
            match updateDealStage env.updateDealStageResult dealId DEAL_STAGE_FOLLOWUP with
            | .ok e => .ok (some dealId) (some DEAL_STAGE_FOLLOWUP) (a1 ++ a2 ++ e)
            | .error => .raised (a1 ++ a2)
          else .ok none none (a1 ++ a2)
    | none => .ok none none []

/-- src/main.py `zoom_recording_webhook` (lines 187-367), as a pure
function of the configuration, the CRM call store, the collaborator
environment and the inbound payload.  Returns the JSON response and the
list of CRM writes performed, in order. -/
def zoomRecordingWebhook (cfg : Config) (calls : List CallRecord) (env : Env)
    (payload : WebhookPayload) : WebhookResponse × List Effect :=
  if payload.event = some "endpoint.url_validation" then
    if pyTruthy payload.plainToken = false then
      (.httpError 400 "plainToken missing in validation payload", [])
    else if cfg.zoomWebhookSecretToken = "" then
      (.httpError 500 "Zoom webhook secret token not configured", [])
    else
      (.validation (pyOrStr payload.plainToken "")
        (zoomEncryptedToken cfg.zoomWebhookSecretToken (pyOrStr payload.plainToken "")), [])
  else if payload.event ≠ some "recording.completed" then
    (.ignoredEvent payload.event, [])
  else
    let zmid := zmidOf payload
    if zmid = "" then (.httpError 400 "Zoom meeting ID is missing", [])
    else
      match chooseMediaRecordingFile env.recordingFiles with
      | none => (.ignoredNoMediaRecordingFile zmid, [])
      | some chosen =>
        if pyTruthy chosen.id = false then (.ignoredNoRecordingFileId zmid, [])
        else
          let exp := env.now + 7 * 24 * 60 * 60
          if cfg.mediaProxySecret = "" then
            (.httpError 500 "MEDIA_PROXY_SECRET not configured", [])
          else
            let proxyUrl := buildProxyUrl cfg zmid (pyOrStr chosen.id "") exp
            match env.searchMeeting with
            | none => (.ignoredNoMatchingMeeting zmid, [])
            | some meeting =>
              if pyTruthy meeting.hs_activity_type = false then
                (.ignoredMissingActivityType meeting.id zmid, [])
              else
                let contactIds := env.contactIds
                let dealIds := env.dealIds
                let primaryContactName :=
                  match contactIds with
                  | [] => none
                  | _ :: _ => caughtName env.contactNameResult
                let dp := dispositionPhase payload.obj.uuid env.participantsApi
                let durationMs := extractDurationMs payload.obj.duration
                match findExistingCallByZoomMeetingId calls zmid with
                | some existingCall => (.duplicateIgnored existingCall.id, [])
                | none =>
                  let props := createCallProps meeting meeting.hs_activity_type
                    proxyUrl zmid payload.obj.uuid env.startEpochMs durationMs
                    dp.1 primaryContactName
                  let callId := env.newCallId
                  let createEff := [Effect.createCall env.newCallId props]
                  match associateCallToContacts env.assocContactsResult callId contactIds with
                  | .error => (.unhandledException, createEff)
                  | .ok e1 =>
                    match associateCallToDeals env.assocDealsResult callId dealIds with
                    | .error => (.unhandledException, createEff ++ e1)
                    | .ok e2 =>
                      match dealStagePhase env callId meeting.id with
                      | .raised e3 => (.unhandledException, createEff ++ e1 ++ e2 ++ e3)
                      | .ok updatedDealId updatedDealStage e3 =>
                        (.ok callId dp.2 dp.1 contactIds dealIds
                          updatedDealId updatedDealStage,
                          createEff ++ e1 ++ e2 ++ e3 ++
                          markMeetingCompleted env.markCompletedResult meeting.id)

/-- The property dict the main path writes, exactly as assembled at
src/main.py lines 281-291 (used to state the handler lemmas below). -/
def mainCallProps (cfg : Config) (env : Env) (payload : WebhookPayload)
    (chosen : RecordingFile) (meeting : Meeting) : CallProps :=
  createCallProps meeting meeting.hs_activity_type
    (buildProxyUrl cfg (zmidOf payload) (pyOrStr chosen.id "")
      (env.now + 7 * 24 * 60 * 60))
    (zmidOf payload) payload.obj.uuid env.startEpochMs
    (extractDurationMs payload.obj.duration)
    (dispositionPhase payload.obj.uuid env.participantsApi).1
    (match env.contactIds with
     | [] => none
     | _ :: _ => caughtName env.contactNameResult)

/-- Apply the CRM writes of a delivery to the call store: each creation
appends the record the CRM now holds.  (Association and stage writes do
not change the call store.) -/
def applyEffects (calls : List CallRecord) (effects : List Effect) :
    List CallRecord :=
  effects.foldl
    (fun acc e =>
      match e with
      | .createCall assignedId props => acc ++ [⟨assignedId, props⟩]
      | _ => acc)
    calls

/-- Whether an effect is a call creation. -/
def Effect.isCreate : Effect → Bool
  | .createCall .. => true
  | _ => false

/-- Number of call-creation writes in a delivery. -/
def countCreates (effects : List Effect) : Nat :=
  (effects.filter Effect.isCreate).length

/-- The media-selection guard of the delivery succeeded with a usable file
id. -/
def chosenOk (env : Env) : Bool :=
  match chooseMediaRecordingFile env.recordingFiles with
  | some chosen => pyTruthy chosen.id
  | none => false

/-- The CRM activity match succeeded with a truthy activity type. -/
def meetingOk (env : Env) : Bool :=
  match env.searchMeeting with
  | some m => pyTruthy m.hs_activity_type
  | none => false

/-- The delivery reaches the idempotency guard: a recording-completed event
with a session id, a selected media file with an id, a configured proxy
secret, and a matched activity with an activity type. -/
def ReachesGuard (cfg : Config) (env : Env) (payload : WebhookPayload) : Prop :=
  payload.event = some "recording.completed" ∧
  zmidOf payload ≠ "" ∧
  chosenOk env = true ∧
  cfg.mediaProxySecret ≠ "" ∧
  meetingOk env = true

instance (cfg : Config) (env : Env) (payload : WebhookPayload) :
    Decidable (ReachesGuard cfg env payload) := by
  unfold ReachesGuard
  infer_instance

/-- The single deal the delivery considers for a stage transition: the
(caught) latest directly-associated deal, else the (caught) contact
fallback deal. -/
def consideredDeal (env : Env) : Option Deal :=
  match caughtDeal env.latestMeetingDealResult with
  | some d => some d
  | none => caughtDeal env.contactDealResult

/-!  ## Concrete fixtures used by witnesses and counterexamples -/

def cfgW : Config :=
  { zoomWebhookSecretToken := "zs", mediaProxySecret := "ms",
    publicBaseUrl := "https://bridge.example" }

/-- An audio-only M4A recording file. -/
def fM4aAudioW : RecordingFile :=
  { id := some "f-m4a", file_type := some "M4A", file_extension := none,
    recording_type := some "audio_only", file_size := none,
    download_url := some "https://dl/m4a", play_url := none }

/-- An audio-only MP3 recording file. -/
def fMp3AudioW : RecordingFile :=
  { id := some "f-mp3", file_type := some "MP3", file_extension := none,
    recording_type := some "audio_only", file_size := none,
    download_url := some "https://dl/mp3", play_url := none }

/-- A large screen-share MP4. -/
def fMp4BigW : RecordingFile :=
  { id := some "f-big", file_type := some "MP4", file_extension := none,
    recording_type := some "shared_screen_with_speaker_view",
    file_size := some (.int 1000), download_url := some "https://dl/big",
    play_url := none }

/-- A small screen-share MP4. -/
def fMp4SmallW : RecordingFile :=
  { id := some "f-small", file_type := some "MP4", file_extension := none,
    recording_type := some "shared_screen_with_gallery_view",
    file_size := some (.int 10), download_url := some "https://dl/small",
    play_url := none }

/-- A generic text artifact with a download URL and no recording-kind tag. -/
def fTxtW : RecordingFile :=
  { id := some "f-txt", file_type := some "TXT", file_extension := none,
    recording_type := none, file_size := none,
    download_url := some "https://dl/txt", play_url := none }

/-- A transcript artifact (tagged by recording kind, no URL kept). -/
def fTranscriptW : RecordingFile :=
  { id := some "f-vtt", file_type := some "TRANSCRIPT", file_extension := none,
    recording_type := some "audio_transcript", file_size := none,
    download_url := some "https://dl/vtt", play_url := none }

def meetingW : Meeting :=
  { id := some "m1", hs_activity_type := some "Discovery Call",
    hubspot_owner_id := some "o1", hs_owner_id := none }

def payloadW : WebhookPayload :=
  { event := some "recording.completed", plainToken := none,
    obj := { id := some "555", uuid := some "uuid-1",
             start_time := some "2026-01-01T00:00:00Z", duration := some 30 } }

def dealSignedW : Deal := { id := some "d9", dealstage := some DEAL_STAGE_AGREEMENT_SIGNED }
def dealClosedLostW : Deal := { id := some "d9", dealstage := some DEAL_STAGE_CLOSED_LOST }

/-- Base environment: delivery that reaches creation with no deal found. -/
def envW : Env :=
  { recordingFiles := [fM4aAudioW]
    searchMeeting := some meetingW
    contactIds := ["c1"]
    dealIds := []
    contactNameResult := .ok (some "Ada Lovelace")
    participantsApi := .ok { status := 200, participants :=
      [{ name := some "A", user_email := some "a@x" },
       { name := some "B", user_email := some "b@x" }] }
    latestMeetingDealResult := .ok none
    contactDealResult := .ok none
    newCallId := some "call-1"
    assocContactsResult := .ok 204
    assocDealsResult := .ok 204
    assocMeetingDealsResult := .ok 204
    updateDealStageResult := .ok 204
    markCompletedResult := .ok ()
    now := 0
    startEpochMs := 0 }

/-- Every caught advisory collaborator fails, and every write POST returns
an HTTP 500 error status (logged only). -/
def envFailW : Env :=
  { envW with contactNameResult := .error, participantsApi := .error,
              latestMeetingDealResult := .error, contactDealResult := .error,
              markCompletedResult := .error, assocContactsResult := .ok 500,
              assocDealsResult := .ok 500, assocMeetingDealsResult := .ok 500,
              updateDealStageResult := .ok 500 }

/-- The contact-association POST raises a transport error. -/
def envRaiseW : Env := { envW with assocContactsResult := .error }

/-- Contact-fallback deal in a protected stage. -/
def envProtW : Env := { envW with contactDealResult := .ok (some dealSignedW) }

/-- Contact-fallback deal in the Closed-Lost stage. -/
def envFallbackW : Env := { envW with contactDealResult := .ok (some dealClosedLostW) }

/-- Participant lookup answers 404 (no past-meeting participants found). -/
def envNotFoundW : Env :=
  { envW with participantsApi := .ok { status := 404, participants := [] } }

/-- A pre-existing CRM call record for session id "555". -/
def callRecordW : CallRecord :=
  { id := some "call-0"
    props :=
      { hs_timestamp := 0, hs_call_status := "COMPLETED",
        hs_call_direction := "OUTBOUND", hs_call_recording_url := "u",
        hs_activity_type := "Discovery Call", hs_call_title := "t",
        hs_call_body := "b", zoom_meeting_id := "555", integration_call := true,
        hs_call_duration := 0, hubspot_owner_id := none,
        hs_call_disposition := none, zoom_meeting_uuid := none } }

/-!  # Theorems

Shared lemmas come first, then one theorem per claim of the specification,
each followed by its witness (for theorems with hypotheses) or preceded by
its counterexample. -/

theorem stableSortByKey_head (key : RecordingFile → Int) :
    ∀ l : List RecordingFile, l ≠ [] →
    ∃ pre m post, l = pre ++ m :: post ∧
      (stableSortByKey key l).head? = some m ∧
      (∀ x ∈ l, key m ≤ key x) ∧ (∀ x ∈ pre, key m < key x) := by
  intro l
  induction l with
  | nil => intro h; exact absurd rfl h
  | cons x xs ih =>
    intro _
    by_cases hxs : xs = []
    · subst hxs
      refine ⟨[], x, [], rfl, rfl, ?_, by simp⟩
      intro y hy
      rcases List.mem_singleton.mp hy with rfl
      exact le_refl _
    · obtain ⟨pre, m, post, hd, hh, hmin, hpre⟩ := ih hxs
      obtain ⟨t, ht⟩ : ∃ t, stableSortByKey key xs = m :: t := by
        cases hsort : stableSortByKey key xs with
        | nil => rw [hsort] at hh; simp at hh
        | cons a u =>
          rw [hsort] at hh
          simp only [List.head?_cons, Option.some.injEq] at hh
          exact ⟨u, by rw [hh]⟩
      have hstep : stableSortByKey key (x :: xs) = sortedInsert key x (m :: t) := by
        show sortedInsert key x (stableSortByKey key xs) = _
        rw [ht]
      by_cases hle : key x ≤ key m
      · refine ⟨[], x, xs, rfl, ?_, ?_, by simp⟩
        · rw [hstep]
          simp [sortedInsert, hle]
        · intro y hy
          rcases List.mem_cons.mp hy with rfl | h2
          · exact le_refl _
          · exact le_trans hle (hmin y h2)
      · push_neg at hle
        refine ⟨x :: pre, m, post, by rw [hd]; rfl, ?_, ?_, ?_⟩
        · rw [hstep]
          simp [sortedInsert, not_le.mpr hle]
        · intro y hy
          rcases List.mem_cons.mp hy with rfl | h2
          · exact le_of_lt hle
          · exact hmin y h2
        · intro y hy
          rcases List.mem_cons.mp hy with rfl | h2
          · exact hle
          · exact hpre y h2

/-- Claim C3 counterexample: the webhook selector `_choose_media_recording_file`
does not prefer M4A within the audio_only subset (it returns the first
audio_only survivor, here the MP3), and does not pick the smallest MP4 when
no audio_only file exists (it returns the first survivor, here the larger
MP4), contradicting the claimed priority order at these concrete inputs. -/
theorem C3_counterexample :
    chooseMediaRecordingFile [fMp3AudioW, fM4aAudioW] = some fMp3AudioW ∧
    mainMediaPred fM4aAudioW = true ∧
    mainIsAudioOnly fM4aAudioW = true ∧
    mainFileType fM4aAudioW = "M4A" ∧
    mainFileType fMp3AudioW ≠ "M4A" ∧
    chooseMediaRecordingFile [fMp4BigW, fMp4SmallW] = some fMp4BigW ∧
    mainMediaPred fMp4SmallW = true ∧
    mainIsAudioOnly fMp4BigW = false ∧
    mainIsAudioOnly fMp4SmallW = false ∧
    sizeOrBig fMp4SmallW < sizeOrBig fMp4BigW := by
  decide

theorem find?_filter_and {α : Type} (l : List α) (p q : α → Bool) :
    (l.filter p).find? q = l.find? (fun a => p a && q a) := by
  induction l with
  | nil => rfl
  | cons x xs ih =>
    by_cases hp : p x
    · by_cases hq : q x
      · simp [List.filter_cons, hp, hq]
      · simp [List.filter_cons, hp, hq, ih]
    · simp [List.filter_cons, hp, ih]

/-- Claim C3 (amended).  The backfill selector `choose_media_download_url`
follows the claimed priority order: (a) no allowed-type survivor yields
none; (b1) the first audio_only survivor that is an M4A is preferred;
(b2) with audio_only survivors but no M4A among them, the first audio_only
survivor is returned; (c) with no audio_only survivor, the first
minimal-`size_or_big` MP4 survivor is returned (missing/invalid sizes count
as 10^18, ties resolve to the first encountered); (d) with no MP4 either,
the first survivor.  The webhook selector `_choose_media_recording_file`
instead returns (e1) the first audio_only survivor with no M4A preference,
and (e2) otherwise the first survivor regardless of size.  In each case the
backfill selector returns the picked file's download/play URL. -/
theorem C3_amended_media_priority (files : List RecordingFile) :
    (files.filter backfillAllowed = [] → chooseMediaDownloadUrl files = none) ∧
    (∀ m, (files.filter backfillAllowed).find?
        (fun f => backfillIsAudioOnly f && backfillIsM4A f) = some m →
      chooseMediaDownloadUrl files = urlOf m) ∧
    (∀ a, (files.filter backfillAllowed).find? backfillIsAudioOnly = some a →
      (files.filter backfillAllowed).find?
        (fun f => backfillIsAudioOnly f && backfillIsM4A f) = none →
      chooseMediaDownloadUrl files = urlOf a) ∧
    ((files.filter backfillAllowed).find? backfillIsAudioOnly = none →
      ∀ m0 rest, (files.filter backfillAllowed).filter backfillIsMP4 = m0 :: rest →
      ∃ pre m post,
        (files.filter backfillAllowed).filter backfillIsMP4 = pre ++ m :: post ∧
        chooseMediaDownloadUrl files = urlOf m ∧
        (∀ x ∈ (files.filter backfillAllowed).filter backfillIsMP4,
          sizeOrBig m ≤ sizeOrBig x) ∧
        (∀ x ∈ pre, sizeOrBig m < sizeOrBig x)) ∧
    ((files.filter backfillAllowed).find? backfillIsAudioOnly = none →
      (files.filter backfillAllowed).filter backfillIsMP4 = [] →
      ∀ s0 rest, files.filter backfillAllowed = s0 :: rest →
      chooseMediaDownloadUrl files = urlOf s0) ∧
    (∀ a, (files.filter mainMediaPred).find? mainIsAudioOnly = some a →
      chooseMediaRecordingFile files = some a) ∧
    (∀ m0 rest, files.filter mainMediaPred = m0 :: rest →
      (files.filter mainMediaPred).find? mainIsAudioOnly = none →
      chooseMediaRecordingFile files = some m0) := by
  have hne : ∀ (l : List RecordingFile) (p : RecordingFile → Bool) (x : RecordingFile)
      (t : List RecordingFile), l.filter p = x :: t → ¬l.isEmpty := by
    intro l p x t h
    simp only [List.isEmpty_iff]
    intro he
    subst he
    simp at h
  refine ⟨?_, ?_, ?_, ?_, ?_, ?_, ?_⟩
  · intro h
    unfold chooseMediaDownloadUrl
    by_cases hf : files.isEmpty
    · rw [if_pos hf]
    · rw [if_neg hf]
      simp [h]
  · intro m hm
    have hmem : m ∈ files.filter backfillAllowed := List.mem_of_find?_eq_some hm
    obtain ⟨s0, t0, hsurv⟩ : ∃ s0 t0, files.filter backfillAllowed = s0 :: t0 := by
      cases h : files.filter backfillAllowed with
      | nil => rw [h] at hmem; simp at hmem
      | cons a b => exact ⟨a, b, rfl⟩
    have hfind : ((files.filter backfillAllowed).filter backfillIsAudioOnly).find?
        backfillIsM4A = some m := by
      rw [find?_filter_and]
      exact hm
    unfold chooseMediaDownloadUrl
    rw [if_neg (hne _ _ _ _ hsurv)]
    rw [if_neg (by simp [List.isEmpty_iff, hsurv])]
    cases haud : (files.filter backfillAllowed).filter backfillIsAudioOnly with
    | nil => rw [haud] at hfind; simp at hfind
    | cons a0 t =>
      rw [haud] at hfind
      simp only [haud]
      have hh : ((a0 :: t).filter backfillIsM4A).head? = some m := by
        rw [List.filter_head?]
        exact hfind
      rw [List.headD_eq_head?_getD, hh]
      rfl
  · intro a hfa hnm
    obtain ⟨s0, t0, hsurv⟩ : ∃ s0 t0, files.filter backfillAllowed = s0 :: t0 := by
      have hmem := List.mem_of_find?_eq_some hfa
      cases h : files.filter backfillAllowed with
      | nil => rw [h] at hmem; simp at hmem
      | cons x b => exact ⟨x, b, rfl⟩
    unfold chooseMediaDownloadUrl
    rw [if_neg (hne _ _ _ _ hsurv)]
    rw [if_neg (by simp [List.isEmpty_iff, hsurv])]
    have hh : ((files.filter backfillAllowed).filter backfillIsAudioOnly).head? = some a := by
      rw [List.filter_head?]
      exact hfa
    cases haud : (files.filter backfillAllowed).filter backfillIsAudioOnly with
    | nil => rw [haud] at hh; simp at hh
    | cons a0 t =>
      rw [haud] at hh
      simp only [List.head?_cons, Option.some.injEq] at hh
      subst hh
      simp only [haud]
      have hm4 : (a0 :: t).filter backfillIsM4A = [] := by
        rw [List.filter_eq_nil_iff]
        intro x hx
        have hxm : x ∈ (files.filter backfillAllowed).filter backfillIsAudioOnly := by
          rw [haud]; exact hx
        have hx2 := List.mem_filter.mp hxm
        have hno := List.find?_eq_none.mp hnm x hx2.1
        simp only [Bool.and_eq_true, not_and] at hno
        intro hm4a
        exact hno hx2.2 hm4a
      rw [hm4]
      rfl
  · intro hnone m0 rest hmp4
    obtain ⟨s0, t0, hsurv⟩ : ∃ s0 t0, files.filter backfillAllowed = s0 :: t0 := by
      have hmem : m0 ∈ files.filter backfillAllowed := by
        have hmm : m0 ∈ (files.filter backfillAllowed).filter backfillIsMP4 := by
          rw [hmp4]; simp
        exact (List.mem_filter.mp hmm).1
      cases h : files.filter backfillAllowed with
      | nil => rw [h] at hmem; simp at hmem
      | cons x b => exact ⟨x, b, rfl⟩
    have haud : (files.filter backfillAllowed).filter backfillIsAudioOnly = [] := by
      rw [List.filter_eq_nil_iff]
      intro x hx
      have hno := List.find?_eq_none.mp hnone x hx
      simpa using hno
    have hmp4ne : (files.filter backfillAllowed).filter backfillIsMP4 ≠ [] := by
      rw [hmp4]; simp
    obtain ⟨pre, m, post, hdec, hhead, hmin, hpre⟩ :=
      stableSortByKey_head sizeOrBig _ hmp4ne
    refine ⟨pre, m, post, hdec, ?_, hmin, hpre⟩
    unfold chooseMediaDownloadUrl
    rw [if_neg (hne _ _ _ _ hsurv)]
    rw [if_neg (by simp [List.isEmpty_iff, hsurv])]
    simp only [haud]
    rw [hmp4]
    have hh2 : (stableSortByKey sizeOrBig (m0 :: rest)).head? = some m := by
      rw [← hmp4]; exact hhead
    rw [hh2]
  · intro hnone hmp4 s0 rest hsurv
    have haud : (files.filter backfillAllowed).filter backfillIsAudioOnly = [] := by
      rw [List.filter_eq_nil_iff]
      intro x hx
      have hno := List.find?_eq_none.mp hnone x hx
      simpa using hno
    unfold chooseMediaDownloadUrl
    rw [if_neg (hne _ _ _ _ hsurv)]
    rw [if_neg (by simp [List.isEmpty_iff, hsurv])]
    rw [haud, hmp4, hsurv]
  · intro a ha
    obtain ⟨m0, t0, hmed⟩ : ∃ m0 t0, files.filter mainMediaPred = m0 :: t0 := by
      have hmem := List.mem_of_find?_eq_some ha
      cases h : files.filter mainMediaPred with
      | nil => rw [h] at hmem; simp at hmem
      | cons x b => exact ⟨x, b, rfl⟩
    unfold chooseMediaRecordingFile
    rw [if_neg (hne _ _ _ _ hmed)]
    simp only [hmed]
    rw [hmed] at ha
    rw [ha]
  · intro m0 rest hmed hnone
    unfold chooseMediaRecordingFile
    rw [if_neg (hne _ _ _ _ hmed)]
    simp only [hmed]
    rw [hmed] at hnone
    rw [hnone]

/-- Witness for C3 (amended) at concrete file lists. -/
theorem C3_amended_media_priority_witness :
    (([fMp3AudioW, fM4aAudioW].filter backfillAllowed).find?
        (fun f => backfillIsAudioOnly f && backfillIsM4A f) = some fM4aAudioW ∧
      chooseMediaDownloadUrl [fMp3AudioW, fM4aAudioW] = urlOf fM4aAudioW) ∧
    ([fMp4BigW, fMp4SmallW].filter mainMediaPred = fMp4BigW :: [fMp4SmallW] ∧
      ([fMp4BigW, fMp4SmallW].filter mainMediaPred).find? mainIsAudioOnly = none ∧
      chooseMediaRecordingFile [fMp4BigW, fMp4SmallW] = some fMp4BigW) := by
  refine ⟨⟨by decide, ?_⟩, by decide, by decide, ?_⟩
  · exact (C3_amended_media_priority [fMp3AudioW, fM4aAudioW]).2.1 fM4aAudioW (by decide)
  · exact (C3_amended_media_priority [fMp4BigW, fMp4SmallW]).2.2.2.2.2.2 fMp4BigW
      [fMp4SmallW] (by decide) (by decide)

/-- Claim C9 counterexample: a list holding only a generic text artifact
(file type TXT, not an allowed media type, no recording-kind tag) with a
download URL makes the webhook selector return that file via its fallback
branch, not none. -/
theorem C9_counterexample :
    ([fTxtW].all (fun f => !(ALLOWED_MEDIA_FILE_TYPES.contains (mainFileType f))) = true) ∧
    chooseMediaRecordingFile [fTxtW] = some fTxtW := by
  decide

/-- Claim C9 (amended).  When no file has an allowed media type (M4A, MP4,
MP3, WAV): the backfill selector `choose_media_download_url` returns none
unconditionally; the webhook selector `_choose_media_recording_file`
returns none exactly when every file is additionally either tagged with an
excluded recording kind or lacks both download and play URLs — otherwise
its fallback returns the first file with a URL whose recording kind is not
excluded, even though its type is not an allowed media type. -/
theorem C9_amended_no_media_selection (files : List RecordingFile) :
    ((∀ f ∈ files, backfillAllowed f = false) → chooseMediaDownloadUrl files = none) ∧
    ((∀ f ∈ files, ALLOWED_MEDIA_FILE_TYPES.contains (mainFileType f) = false) →
      (chooseMediaRecordingFile files = none ↔
        ∀ f ∈ files, mainFallbackPred f = false)) := by
  constructor
  · intro h
    have hfil : files.filter backfillAllowed = [] := by
      rw [List.filter_eq_nil_iff]
      intro x hx
      simp [h x hx]
    unfold chooseMediaDownloadUrl
    by_cases hf : files.isEmpty
    · rw [if_pos hf]
    · rw [if_neg hf]
      simp [hfil]
  · intro h
    have hfil : files.filter mainMediaPred = [] := by
      rw [List.filter_eq_nil_iff]
      intro x hx
      have hco := h x hx
      simp only [mainMediaPred, Bool.and_eq_true, not_and]
      intro _ hmem
      rw [hco] at hmem
      exact Bool.false_ne_true hmem
    cases hfe : files with
    | nil => simp [chooseMediaRecordingFile]
    | cons f0 rest =>
      rw [← hfe]
      have hne : ¬files.isEmpty = true := by
        simp [List.isEmpty_iff, hfe]
      unfold chooseMediaRecordingFile
      rw [if_neg hne]
      simp only [hfil]
      rw [List.find?_eq_none]
      constructor
      · intro hall f hf
        have := hall f hf
        simpa using this
      · intro hall f hf
        simp [hall f hf]

/-- Witness for C9 (amended): a transcript-only list yields none from both
selectors. -/
theorem C9_amended_no_media_selection_witness :
    ((∀ f ∈ [fTranscriptW], backfillAllowed f = false) ∧
      chooseMediaDownloadUrl [fTranscriptW] = none) ∧
    ((∀ f ∈ [fTranscriptW],
        ALLOWED_MEDIA_FILE_TYPES.contains (mainFileType f) = false) ∧
      chooseMediaRecordingFile [fTranscriptW] = none) := by
  refine ⟨⟨by decide, ?_⟩, by decide, ?_⟩
  · exact (C9_amended_no_media_selection [fTranscriptW]).1 (by decide)
  · exact ((C9_amended_no_media_selection [fTranscriptW]).2 (by decide)).mpr (by decide)

theorem sha256Bytes_length (m : List Nat) : (sha256Bytes m).length = 32 := by
  simp [sha256Bytes, wordBytes]

theorem bytesToHexChars_length (l : List Nat) :
    (bytesToHexChars l).length = 2 * l.length := by
  induction l with
  | nil => rfl
  | cons b t ih =>
    show (hexChar (b / 16 % 16) :: hexChar (b % 16) :: bytesToHexChars t).length =
      2 * (b :: t).length
    simp only [List.length_cons, ih]
    omega

theorem hmacSha256Hex_length (key msg : String) :
    (hmacSha256Hex key msg).length = 64 := by
  have h2 : (hmacSha256 (strBytes key) (strBytes msg)).length = 32 :=
    sha256Bytes_length _
  calc (hmacSha256Hex key msg).length
      = (bytesToHexChars (hmacSha256 (strBytes key) (strBytes msg))).length := rfl
    _ = 2 * (hmacSha256 (strBytes key) (strBytes msg)).length :=
        bytesToHexChars_length _
    _ = 64 := by rw [h2]

/-- Claim C6: a proxy token signed as the keyed hash over
`meeting_id:file_id:exp` verifies as long as the current time has not
passed the expiry (the check is strict less-than, so `exp = now` is still
accepted), is rejected as expired once the current time passes the expiry,
and any signature different from the issued one is rejected as a bad
signature. -/
theorem C6_proxy_token_verification (secret meeting_id file_id : String)
    (exp now : Int) (hsec : secret ≠ "") :
    (now ≤ exp →
      recordingsProxyAuth secret meeting_id file_id exp
        (proxySig secret meeting_id file_id exp) now = .ok) ∧
    (exp < now → ∀ sig,
      recordingsProxyAuth secret meeting_id file_id exp sig now = .expired) ∧
    (now ≤ exp → ∀ sig, sig ≠ proxySig secret meeting_id file_id exp →
      recordingsProxyAuth secret meeting_id file_id exp sig now = .badSignature) := by
  unfold recordingsProxyAuth recordingsProxyAuthWith
  refine ⟨?_, ?_, ?_⟩
  · intro h
    rw [if_neg (not_lt.mpr h), if_neg hsec,
      if_pos (show proxySigWith hmacSha256Hex secret meeting_id file_id exp =
        proxySig secret meeting_id file_id exp from rfl)]
  · intro h sig
    rw [if_pos h]
  · intro h sig hne
    rw [if_neg (not_lt.mpr h), if_neg hsec,
      if_neg (fun he => hne he.symm)]

/-- Witness for C6 at concrete inputs, including the `exp = now` boundary
and an altered (empty) signature. -/
theorem C6_proxy_token_verification_witness :
    (("k" : String) ≠ "") ∧
    recordingsProxyAuth "k" "m" "f" 10 (proxySig "k" "m" "f" 10) 10 = .ok ∧
    recordingsProxyAuth "k" "m" "f" 10 "" 10 = .badSignature ∧
    recordingsProxyAuth "k" "m" "f" 10 (proxySig "k" "m" "f" 10) 11 = .expired := by
  have hsec : ("k" : String) ≠ "" := by decide
  have hlen : (proxySig "k" "m" "f" 10).length = 64 := hmacSha256Hex_length _ _
  have hne : ("" : String) ≠ proxySig "k" "m" "f" 10 := by
    intro h
    have hl := congrArg String.length h
    rw [hlen] at hl
    exact absurd hl (by decide)
  exact ⟨hsec,
    (C6_proxy_token_verification "k" "m" "f" 10 10 hsec).1 (by decide),
    (C6_proxy_token_verification "k" "m" "f" 10 10 hsec).2.2 (by decide) "" hne,
    (C6_proxy_token_verification "k" "m" "f" 10 11 hsec).2.1 (by decide) _⟩

/-- Claim C10: the proxy endpoint checks expiry before the signature: any
request with `exp` strictly below the current time is rejected as expired,
whatever the supplied signature, and even when the signing secret is not
configured (which shows the signature machinery is not consulted). -/
theorem C10_expiry_checked_before_signature
    (secret meeting_id file_id : String) (exp : Int) (sig : String)
    (now : Int) (h : exp < now) :
    recordingsProxyAuth secret meeting_id file_id exp sig now = .expired := by
  unfold recordingsProxyAuth recordingsProxyAuthWith
  rw [if_pos h]

/-- Witness for C10: an expired request with an unconfigured secret and an
arbitrary signature is still answered with the expired rejection. -/
theorem C10_expiry_checked_before_signature_witness :
    ((0 : Int) < 5) ∧
    recordingsProxyAuth "" "m" "f" 0 "whatever" 5 = .expired :=
  ⟨by decide, C10_expiry_checked_before_signature "" "m" "f" 0 "whatever" 5 (by decide)⟩

/-- Claim C7 counterexample: the signed message is the unescaped
concatenation `meeting_id:file_id:exp`, so the two distinct pairs
("a:b", "c") and ("a", "b:c") produce the same message "a:b:c:5"; the
signature issued for the first pair verifies for the second pair at the
same expiry. -/
theorem C7_counterexample :
    (("a:b", "c") ≠ (("a", "b:c") : String × String)) ∧
    recordingsProxyAuth "k" "a" "b:c" 5 (proxySig "k" "a:b" "c" 5) 0 = .ok := by
  constructor
  · decide
  · have hmsg : proxyMsg "a" "b:c" 5 = proxyMsg "a:b" "c" 5 := by decide
    unfold recordingsProxyAuth recordingsProxyAuthWith proxySig proxySigWith
    rw [hmsg]
    rw [if_neg (by decide), if_neg (by decide), if_pos rfl]

/-- Claim C7 (amended): proxy signatures are scoped to the colon-joined
message `meeting_id:file_id:exp` rather than to the (meeting id, file id)
pair itself.  Two distinct pairs whose joined messages coincide (possible
exactly when an id contains the ':' delimiter) share signatures, as the
counterexample shows; whenever the joined messages differ, a token issued
for one pair never verifies for the other under any injective keyed hash. -/
theorem C7_amended_capability_scope (mac : String → String → String)
    (secret : String) (hinj : ∀ x y, mac secret x = mac secret y → x = y)
    (m1 f1 m2 f2 : String) (exp now : Int)
    (hmsg : proxyMsg m2 f2 exp ≠ proxyMsg m1 f1 exp) :
    recordingsProxyAuthWith mac secret m2 f2 exp
      (proxySigWith mac secret m1 f1 exp) now ≠ .ok := by
  unfold recordingsProxyAuthWith
  by_cases h1 : exp < now
  · rw [if_pos h1]
    decide
  · rw [if_neg h1]
    by_cases h2 : secret = ""
    · rw [if_pos h2]
      decide
    · rw [if_neg h2]
      by_cases h3 : proxySigWith mac secret m2 f2 exp = proxySigWith mac secret m1 f1 exp
      · exact absurd (hinj _ _ h3) hmsg
      · rw [if_neg h3]
        decide

/-- Witness for C7 (amended) with a concrete injective keyed hash and
concrete distinct messages. -/
theorem C7_amended_capability_scope_witness :
    proxyMsg "c" "d" 0 ≠ proxyMsg "a" "b" 0 ∧
    recordingsProxyAuthWith (fun _ m => m) "k" "c" "d" 0
      (proxySigWith (fun _ m => m) "k" "a" "b" 0) 0 ≠ .ok := by
  refine ⟨by decide, ?_⟩
  exact C7_amended_capability_scope (fun _ m => m) "k" (fun x y h => h)
    "a" "b" "c" "d" 0 0 (by decide)

theorem chosenOk_elim (env : Env) (h : chosenOk env = true) :
    ∃ ch, chooseMediaRecordingFile env.recordingFiles = some ch ∧
      pyTruthy ch.id = true := by
  unfold chosenOk at h
  cases hc : chooseMediaRecordingFile env.recordingFiles with
  | none => rw [hc] at h; simp at h
  | some ch =>
    rw [hc] at h
    exact ⟨ch, rfl, h⟩

theorem meetingOk_elim (env : Env) (h : meetingOk env = true) :
    ∃ m, env.searchMeeting = some m ∧ pyTruthy m.hs_activity_type = true := by
  unfold meetingOk at h
  cases hc : env.searchMeeting with
  | none => rw [hc] at h; simp at h
  | some m =>
    rw [hc] at h
    exact ⟨m, rfl, h⟩

theorem assocContacts_ok (st : Nat) (c : Option String) (ids : List String) :
    associateCallToContacts (.ok st) c ids = .ok (assocCallContactsEffects c ids) := by
  cases ids <;> rfl

theorem assocDeals_ok (st : Nat) (c : Option String) (ids : List String) :
    associateCallToDeals (.ok st) c ids = .ok (assocCallDealsEffects c ids) := by
  cases ids <;> rfl

theorem assocContacts_ok_shape (r : WriteOutcome) (c : Option String)
    (ids : List String) (e : List Effect)
    (h : associateCallToContacts r c ids = .ok e) :
    e = assocCallContactsEffects c ids := by
  cases ids with
  | nil =>
    simp [associateCallToContacts] at h
    simp [assocCallContactsEffects, h]
  | cons x t =>
    cases r with
    | ok st =>
      simp [associateCallToContacts] at h
      simp [assocCallContactsEffects, h]
    | error => simp [associateCallToContacts] at h

theorem assocDeals_ok_shape (r : WriteOutcome) (c : Option String)
    (ids : List String) (e : List Effect)
    (h : associateCallToDeals r c ids = .ok e) :
    e = assocCallDealsEffects c ids := by
  cases ids with
  | nil =>
    simp [associateCallToDeals] at h
    simp [assocCallDealsEffects, h]
  | cons x t =>
    cases r with
    | ok st =>
      simp [associateCallToDeals] at h
      simp [assocCallDealsEffects, h]
    | error => simp [associateCallToDeals] at h

theorem countCreates_assocContactsEffects (c : Option String)
    (ids : List String) : countCreates (assocCallContactsEffects c ids) = 0 := by
  cases ids <;> rfl

theorem countCreates_assocDealsEffects (c : Option String)
    (ids : List String) : countCreates (assocCallDealsEffects c ids) = 0 := by
  cases ids <;> rfl

theorem countCreates_mark (r : Fallible Unit) (m : Option String) :
    countCreates (markMeetingCompleted r m) = 0 := by
  cases r <;> rfl

theorem update_not_mem_assocContactsEffects (c : Option String)
    (ids : List String) (i s : String) :
    Effect.updateDealStage i s ∉ assocCallContactsEffects c ids := by
  cases ids <;> simp [assocCallContactsEffects]

theorem update_not_mem_assocDealsEffects (c : Option String)
    (ids : List String) (i s : String) :
    Effect.updateDealStage i s ∉ assocCallDealsEffects c ids := by
  cases ids <;> simp [assocCallDealsEffects]

theorem update_not_mem_mark (r : Fallible Unit) (m : Option String)
    (i s : String) :
    Effect.updateDealStage i s ∉ markMeetingCompleted r m := by
  cases r <;> simp [markMeetingCompleted]

theorem countCreates_append (a b : List Effect) :
    countCreates (a ++ b) = countCreates a + countCreates b := by
  simp [countCreates, List.filter_append]

theorem countCreates_cons_create (a : Option String) (p : CallProps)
    (tail : List Effect) (h : countCreates tail = 0) :
    countCreates (Effect.createCall a p :: tail) = 1 := by
  unfold countCreates at h ⊢
  simp [List.filter_cons, Effect.isCreate, h]

theorem countCreates_stageEffects (env : Env) (c m : Option String) :
    countCreates (stageEffects (dealStagePhase env c m)) = 0 := by
  unfold dealStagePhase
  cases hl : caughtDeal env.latestMeetingDealResult with
  | some latest =>
    cases hr : env.updateDealStageResult <;>
      simp only [hl, updateDealStage, hr] <;>
      split_ifs <;> rfl
  | none =>
    simp only [hl]
    cases hc : caughtDeal env.contactDealResult with
    | none => simp only [hc]; rfl
    | some cd =>
      cases hd : env.assocDealsResult with
      | error => simp only [hc, associateCallToDeals, hd]; rfl
      | ok st1 =>
        cases hm2 : env.assocMeetingDealsResult with
        | error =>
          simp only [hc, associateCallToDeals, associateMeetingToDeals, hd, hm2]
          rfl
        | ok st2 =>
          cases hr : env.updateDealStageResult <;>
            simp only [hc, associateCallToDeals, associateMeetingToDeals,
              updateDealStage, hd, hm2, hr] <;>
            split_ifs <;> rfl

theorem stageEffects_update_mem (env : Env) (c m : Option String)
    (i s : String)
    (h : Effect.updateDealStage i s ∈ stageEffects (dealStagePhase env c m)) :
    ∃ d, consideredDeal env = some d ∧
      stageProtected (stageFromDeal (some d)) = false := by
  unfold dealStagePhase at h
  unfold consideredDeal
  cases hl : caughtDeal env.latestMeetingDealResult with
  | some latest =>
    simp only [hl] at h
    refine ⟨latest, rfl, ?_⟩
    by_cases hp : stageProtected (stageFromDeal (some latest))
    · rw [if_pos hp] at h
      simp [stageEffects] at h
    · simpa using hp
  | none =>
    simp only [hl] at h
    cases hc : caughtDeal env.contactDealResult with
    | some cd =>
      simp only [hc] at h
      refine ⟨cd, rfl, ?_⟩
      by_cases hp : stageProtected (stageFromDeal (some cd))
      · exfalso
        cases hd : env.assocDealsResult with
        | error =>
          simp only [associateCallToDeals, hd] at h
          simp [stageEffects] at h
        | ok st1 =>
          cases hm2 : env.assocMeetingDealsResult with
          | error =>
            simp only [associateCallToDeals, associateMeetingToDeals, hd, hm2] at h
            simp [stageEffects] at h
          | ok st2 =>
            simp only [associateCallToDeals, associateMeetingToDeals, hd, hm2] at h
            rw [if_pos hp] at h
            simp [stageEffects] at h
      · simpa using hp
    | none =>
      simp only [hc] at h
      simp [stageEffects] at h

theorem handler_dup (cfg : Config) (calls : List CallRecord) (env : Env)
    (payload : WebhookPayload) (chosen : RecordingFile) (meeting : Meeting)
    (c : CallRecord)
    (hev : payload.event = some "recording.completed")
    (hz : zmidOf payload ≠ "")
    (hch : chooseMediaRecordingFile env.recordingFiles = some chosen)
    (hid : pyTruthy chosen.id = true)
    (hsec : cfg.mediaProxySecret ≠ "")
    (hm : env.searchMeeting = some meeting)
    (hty : pyTruthy meeting.hs_activity_type = true)
    (hfind : findExistingCallByZoomMeetingId calls (zmidOf payload) = some c) :
    zoomRecordingWebhook cfg calls env payload = (.duplicateIgnored c.id, []) := by
  simp only [zoomRecordingWebhook, hev, hz, hch, hid, hsec, hm, hty, hfind]
  simp

theorem handler_raised_contacts (cfg : Config) (calls : List CallRecord)
    (env : Env) (payload : WebhookPayload) (chosen : RecordingFile)
    (meeting : Meeting)
    (hev : payload.event = some "recording.completed")
    (hz : zmidOf payload ≠ "")
    (hch : chooseMediaRecordingFile env.recordingFiles = some chosen)
    (hid : pyTruthy chosen.id = true)
    (hsec : cfg.mediaProxySecret ≠ "")
    (hm : env.searchMeeting = some meeting)
    (hty : pyTruthy meeting.hs_activity_type = true)
    (hfind : findExistingCallByZoomMeetingId calls (zmidOf payload) = none)
    (hac : associateCallToContacts env.assocContactsResult env.newCallId
      env.contactIds = .error) :
    zoomRecordingWebhook cfg calls env payload =
      (.unhandledException,
        [Effect.createCall env.newCallId (mainCallProps cfg env payload chosen meeting)]) := by
  simp only [zoomRecordingWebhook, hev, hz, hch, hid, hsec, hm, hty, hfind,
    hac, mainCallProps]
  simp

theorem handler_raised_deals (cfg : Config) (calls : List CallRecord)
    (env : Env) (payload : WebhookPayload) (chosen : RecordingFile)
    (meeting : Meeting) (e1 : List Effect)
    (hev : payload.event = some "recording.completed")
    (hz : zmidOf payload ≠ "")
    (hch : chooseMediaRecordingFile env.recordingFiles = some chosen)
    (hid : pyTruthy chosen.id = true)
    (hsec : cfg.mediaProxySecret ≠ "")
    (hm : env.searchMeeting = some meeting)
    (hty : pyTruthy meeting.hs_activity_type = true)
    (hfind : findExistingCallByZoomMeetingId calls (zmidOf payload) = none)
    (hac : associateCallToContacts env.assocContactsResult env.newCallId
      env.contactIds = .ok e1)
    (had : associateCallToDeals env.assocDealsResult env.newCallId
      env.dealIds = .error) :
    zoomRecordingWebhook cfg calls env payload =
      (.unhandledException,
        [Effect.createCall env.newCallId (mainCallProps cfg env payload chosen meeting)] ++ e1) := by
  simp only [zoomRecordingWebhook, hev, hz, hch, hid, hsec, hm, hty, hfind,
    hac, had, mainCallProps]
  simp

theorem handler_raised_phase (cfg : Config) (calls : List CallRecord)
    (env : Env) (payload : WebhookPayload) (chosen : RecordingFile)
    (meeting : Meeting) (e1 e2 e3 : List Effect)
    (hev : payload.event = some "recording.completed")
    (hz : zmidOf payload ≠ "")
    (hch : chooseMediaRecordingFile env.recordingFiles = some chosen)
    (hid : pyTruthy chosen.id = true)
    (hsec : cfg.mediaProxySecret ≠ "")
    (hm : env.searchMeeting = some meeting)
    (hty : pyTruthy meeting.hs_activity_type = true)
    (hfind : findExistingCallByZoomMeetingId calls (zmidOf payload) = none)
    (hac : associateCallToContacts env.assocContactsResult env.newCallId
      env.contactIds = .ok e1)
    (had : associateCallToDeals env.assocDealsResult env.newCallId
      env.dealIds = .ok e2)
    (hph : dealStagePhase env env.newCallId meeting.id = .raised e3) :
    zoomRecordingWebhook cfg calls env payload =
      (.unhandledException,
        [Effect.createCall env.newCallId (mainCallProps cfg env payload chosen meeting)] ++
          e1 ++ e2 ++ e3) := by
  simp only [zoomRecordingWebhook, hev, hz, hch, hid, hsec, hm, hty, hfind,
    hac, had, hph, mainCallProps]
  simp

theorem handler_main_ok (cfg : Config) (calls : List CallRecord)
    (env : Env) (payload : WebhookPayload) (chosen : RecordingFile)
    (meeting : Meeting) (e1 e2 e3 : List Effect)
    (uid ustage : Option String)
    (hev : payload.event = some "recording.completed")
    (hz : zmidOf payload ≠ "")
    (hch : chooseMediaRecordingFile env.recordingFiles = some chosen)
    (hid : pyTruthy chosen.id = true)
    (hsec : cfg.mediaProxySecret ≠ "")
    (hm : env.searchMeeting = some meeting)
    (hty : pyTruthy meeting.hs_activity_type = true)
    (hfind : findExistingCallByZoomMeetingId calls (zmidOf payload) = none)
    (hac : associateCallToContacts env.assocContactsResult env.newCallId
      env.contactIds = .ok e1)
    (had : associateCallToDeals env.assocDealsResult env.newCallId
      env.dealIds = .ok e2)
    (hph : dealStagePhase env env.newCallId meeting.id = .ok uid ustage e3) :
    zoomRecordingWebhook cfg calls env payload =
      (.ok env.newCallId (dispositionPhase payload.obj.uuid env.participantsApi).2
        (dispositionPhase payload.obj.uuid env.participantsApi).1
        env.contactIds env.dealIds uid ustage,
      [Effect.createCall env.newCallId (mainCallProps cfg env payload chosen meeting)] ++
        e1 ++ e2 ++ e3 ++
        markMeetingCompleted env.markCompletedResult meeting.id) := by
  simp only [zoomRecordingWebhook, hev, hz, hch, hid, hsec, hm, hty, hfind,
    hac, had, hph, mainCallProps]
  simp

theorem handler_effects_cases (cfg : Config) (calls : List CallRecord)
    (env : Env) (payload : WebhookPayload) :
    (zoomRecordingWebhook cfg calls env payload).2 = [] ∨
    ∃ chosen meeting,
      payload.event = some "recording.completed" ∧
      zmidOf payload ≠ "" ∧
      chooseMediaRecordingFile env.recordingFiles = some chosen ∧
      pyTruthy chosen.id = true ∧
      cfg.mediaProxySecret ≠ "" ∧
      env.searchMeeting = some meeting ∧
      pyTruthy meeting.hs_activity_type = true ∧
      findExistingCallByZoomMeetingId calls (zmidOf payload) = none := by
  by_cases h1 : payload.event = some "endpoint.url_validation"
  · left
    simp only [zoomRecordingWebhook, h1]
    split_ifs <;> rfl
  · by_cases h2 : payload.event = some "recording.completed"
    · by_cases h3 : zmidOf payload = ""
      · left
        simp only [zoomRecordingWebhook, h1, h2, h3]
        simp
      · cases hch : chooseMediaRecordingFile env.recordingFiles with
        | none =>
          left
          simp only [zoomRecordingWebhook, h1, h2, h3, hch]
          simp
        | some chosen =>
          by_cases h4 : pyTruthy chosen.id = false
          · left
            simp only [zoomRecordingWebhook, h1, h2, h3, hch, h4]
            simp
          · rw [Bool.not_eq_false] at h4
            by_cases h5 : cfg.mediaProxySecret = ""
            · left
              simp only [zoomRecordingWebhook, h1, h2, h3, hch, h4, h5]
              simp
            · cases hm : env.searchMeeting with
              | none =>
                left
                simp only [zoomRecordingWebhook, h1, h2, h3, hch, h4, h5, hm]
                simp
              | some meeting =>
                by_cases h6 : pyTruthy meeting.hs_activity_type = false
                · left
                  simp only [zoomRecordingWebhook, h1, h2, h3, hch, h4, h5, hm, h6]
                  simp
                · rw [Bool.not_eq_false] at h6
                  cases hfind : findExistingCallByZoomMeetingId calls (zmidOf payload) with
                  | some c =>
                    left
                    rw [handler_dup cfg calls env payload chosen meeting c
                      h2 h3 hch h4 h5 hm h6 hfind]
                  | none =>
                    right
                    exact ⟨chosen, meeting, h2, h3, rfl, h4, h5, rfl, h6, rfl⟩
    · left
      simp only [zoomRecordingWebhook, h1, h2]
      rw [if_neg]
      · rw [if_pos h2]
      · simp

theorem handler_update_mem (cfg : Config) (calls : List CallRecord) (env : Env)
    (payload : WebhookPayload) (i s : String)
    (hmem : Effect.updateDealStage i s ∈ (zoomRecordingWebhook cfg calls env payload).2) :
    ∃ c m, Effect.updateDealStage i s ∈ stageEffects (dealStagePhase env c m) := by
  rcases handler_effects_cases cfg calls env payload with hnil |
    ⟨chosen, meeting, hev, hz, hch, hid, hsec, hm, hty, hfind⟩
  · rw [hnil] at hmem
    simp at hmem
  · cases hac : associateCallToContacts env.assocContactsResult env.newCallId
        env.contactIds with
    | error =>
      rw [handler_raised_contacts cfg calls env payload chosen meeting hev hz
        hch hid hsec hm hty hfind hac] at hmem
      simp at hmem
    | ok e1 =>
      have he1 := assocContacts_ok_shape _ _ _ _ hac
      subst he1
      cases had : associateCallToDeals env.assocDealsResult env.newCallId
          env.dealIds with
      | error =>
        rw [handler_raised_deals cfg calls env payload chosen meeting _ hev hz
          hch hid hsec hm hty hfind hac had] at hmem
        simp only [List.mem_append, List.mem_singleton] at hmem
        rcases hmem with h | h
        · simp at h
        · exact absurd h (update_not_mem_assocContactsEffects _ _ _ _)
      | ok e2 =>
        have he2 := assocDeals_ok_shape _ _ _ _ had
        subst he2
        cases hph : dealStagePhase env env.newCallId meeting.id with
        | raised e3 =>
          rw [handler_raised_phase cfg calls env payload chosen meeting _ _ _
            hev hz hch hid hsec hm hty hfind hac had hph] at hmem
          simp only [List.mem_append, List.mem_singleton] at hmem
          rcases hmem with ((h | h) | h) | h
          · simp at h
          · exact absurd h (update_not_mem_assocContactsEffects _ _ _ _)
          · exact absurd h (update_not_mem_assocDealsEffects _ _ _ _)
          · refine ⟨env.newCallId, meeting.id, ?_⟩
            rw [hph]
            exact h
        | ok uid ustage e3 =>
          rw [handler_main_ok cfg calls env payload chosen meeting _ _ _ uid
            ustage hev hz hch hid hsec hm hty hfind hac had hph] at hmem
          simp only [List.mem_append, List.mem_singleton] at hmem
          rcases hmem with (((h | h) | h) | h) | h
          · simp at h
          · exact absurd h (update_not_mem_assocContactsEffects _ _ _ _)
          · exact absurd h (update_not_mem_assocDealsEffects _ _ _ _)
          · refine ⟨env.newCallId, meeting.id, ?_⟩
            rw [hph]
            exact h
          · exact absurd h (update_not_mem_mark _ _ _ _)

theorem stageProtected_not_eligible (st : Option String)
    (h : stageProtected st = true) :
    ¬(st = some DEAL_STAGE_QUALIFIED ∨ st = some DEAL_STAGE_CLOSED_LOST) := by
  cases st with
  | none => simp [stageProtected] at h
  | some s =>
    intro hc
    have hs : s = DEAL_STAGE_SENT_CLIENT_AGREEMENT ∨
        s = DEAL_STAGE_AGREEMENT_SIGNED ∨ s = DEAL_STAGE_CANCELLED := by
      simpa [stageProtected, PROTECTED_DEAL_STAGES] using h
    rcases hc with h1 | h1 <;> rw [Option.some.injEq] at h1 <;> subst h1 <;>
      rcases hs with h2 | h2 | h2 <;> revert h2 <;> decide

theorem dealStagePhase_ok_exists (env : Env) (c m : Option String)
    (stD stM stU : Nat)
    (hd : env.assocDealsResult = .ok stD)
    (hm2 : env.assocMeetingDealsResult = .ok stM)
    (hu : env.updateDealStageResult = .ok stU) :
    ∃ uid ustage e3, dealStagePhase env c m = .ok uid ustage e3 := by
  unfold dealStagePhase
  cases hl : caughtDeal env.latestMeetingDealResult with
  | some latest =>
    simp only [hl, updateDealStage, hu]
    split_ifs <;> exact ⟨_, _, _, rfl⟩
  | none =>
    simp only [hl]
    cases hc : caughtDeal env.contactDealResult with
    | some cd =>
      simp only [hc, associateCallToDeals, associateMeetingToDeals,
        updateDealStage, hd, hm2, hu]
      split_ifs <;> exact ⟨_, _, _, rfl⟩
    | none =>
      simp only [hc]
      exact ⟨_, _, _, rfl⟩

theorem dealStagePhase_fallback_ok (env : Env) (c m : Option String) (d : Deal)
    (stD stM stU : Nat)
    (h1 : caughtDeal env.latestMeetingDealResult = none)
    (h2 : caughtDeal env.contactDealResult = some d)
    (hd : env.assocDealsResult = .ok stD)
    (hm2 : env.assocMeetingDealsResult = .ok stM)
    (hu : env.updateDealStageResult = .ok stU) :
    ∃ uid ustage, dealStagePhase env c m = .ok uid ustage
      ([Effect.associateCallToDeals c [pyOrStr d.id ""],
        Effect.associateMeetingToDeals m [pyOrStr d.id ""]] ++
       (if stageFromDeal (some d) = some DEAL_STAGE_QUALIFIED ∨
           stageFromDeal (some d) = some DEAL_STAGE_CLOSED_LOST then
         [Effect.updateDealStage (pyOrStr d.id "") DEAL_STAGE_FOLLOWUP]
       else [])) := by
  unfold dealStagePhase
  simp only [h1, h2, associateCallToDeals, associateMeetingToDeals,
    updateDealStage, hd, hm2, hu]
  by_cases hp : stageProtected (stageFromDeal (some d))
  · rw [if_pos hp, if_neg (stageProtected_not_eligible _ hp)]
    exact ⟨_, _, rfl⟩
  · rw [if_neg hp]
    by_cases hq : stageFromDeal (some d) = some DEAL_STAGE_QUALIFIED ∨
        stageFromDeal (some d) = some DEAL_STAGE_CLOSED_LOST
    · rw [if_pos hq, if_pos hq]
      exact ⟨_, _, rfl⟩
    · rw [if_neg hq, if_neg hq]
      exact ⟨_, _, rfl⟩

theorem dealStagePhase_direct_ok (env : Env) (c m : Option String) (d : Deal)
    (stU : Nat)
    (h1 : caughtDeal env.latestMeetingDealResult = some d)
    (hu : env.updateDealStageResult = .ok stU) :
    ∃ uid ustage, dealStagePhase env c m = .ok uid ustage
      (if stageFromDeal (some d) = some DEAL_STAGE_QUALIFIED then
        [Effect.updateDealStage (pyOrStr d.id "") DEAL_STAGE_FOLLOWUP]
      else []) := by
  unfold dealStagePhase
  simp only [h1, updateDealStage, hu]
  by_cases hp : stageProtected (stageFromDeal (some d))
  · rw [if_pos hp,
      if_neg (fun hh => stageProtected_not_eligible _ hp (Or.inl hh))]
    exact ⟨_, _, rfl⟩
  · rw [if_neg hp]
    by_cases hq : stageFromDeal (some d) = some DEAL_STAGE_QUALIFIED
    · rw [if_pos hq, if_pos hq]
      exact ⟨_, _, rfl⟩
    · rw [if_neg hq, if_neg hq]
      exact ⟨_, _, rfl⟩

/-- Claim C4: whenever the single deal considered for a stage transition
(the latest directly-associated deal, else the contact-fallback deal) is in
a protected stage (sent-client-agreement, agreement-signed or cancelled),
the webhook delivery performs no deal-stage update at all, on either
discovery path and in every branch of the handler — including the branches
where an association POST raises and aborts the request. -/
theorem C4_protected_stage_never_updated (cfg : Config)
    (calls : List CallRecord) (env : Env) (payload : WebhookPayload)
    (d : Deal) (hcon : consideredDeal env = some d)
    (hprot : stageProtected (stageFromDeal (some d)) = true) :
    ∀ i s, Effect.updateDealStage i s ∉ (zoomRecordingWebhook cfg calls env payload).2 := by
  intro i s hmem
  obtain ⟨c, m, hph⟩ := handler_update_mem cfg calls env payload i s hmem
  obtain ⟨d2, hd2, hnp⟩ := stageEffects_update_mem env c m i s hph
  rw [hcon] at hd2
  rw [Option.some.injEq] at hd2
  rw [hd2] at hprot
  rw [hprot] at hnp
  simp at hnp

/-- Witness for C4: a contact-fallback deal in the agreement-signed stage
leads to no stage-update write. -/
theorem C4_protected_stage_never_updated_witness :
    consideredDeal envProtW = some dealSignedW ∧
    stageProtected (stageFromDeal (some dealSignedW)) = true ∧
    Effect.updateDealStage "d9" DEAL_STAGE_FOLLOWUP ∉
      (zoomRecordingWebhook cfgW [] envProtW payloadW).2 :=
  ⟨rfl, by decide,
    C4_protected_stage_never_updated cfgW [] envProtW payloadW dealSignedW rfl
      (by decide) "d9" DEAL_STAGE_FOLLOWUP⟩

/-- Claim C2 counterexample: a raised (transport-level) failure of the
contact-association POST is caught nowhere — neither in
`associate_call_to_contacts` nor at its call site — so the delivery that
already created its call record aborts with an unhandled exception instead
of returning the normal success summary. -/
theorem C2_counterexample :
    envRaiseW.assocContactsResult = .error ∧
    envRaiseW.contactIds = ["c1"] ∧
    (zoomRecordingWebhook cfgW [] envRaiseW payloadW).1 = .unhandledException ∧
    ((zoomRecordingWebhook cfgW [] envRaiseW payloadW).1).isOk = false ∧
    countCreates (zoomRecordingWebhook cfgW [] envRaiseW payloadW).2 = 1 := by
  refine ⟨rfl, rfl, ?_, ?_, ?_⟩ <;> decide

/-- Claim C2 (amended): on a delivery that reaches call creation, failures
of the advisory sub-steps that the source wraps in `try`/`except` — the
participant lookup, the contact-name lookup, the two deal lookups and the
activity-completion marking — are caught and degraded, and HTTP error
statuses returned by the association and stage-update POSTs are only
logged, so the handler still returns its normal success summary (first
conjunct: those outcomes are universally quantified in `env`, the writes
merely required to have returned).  But a raised transport failure in an
association or stage-update POST is caught nowhere and aborts the request
as an unhandled exception after the call record has been created (second
conjunct). -/
theorem C2_amended_advisory_failures (cfg : Config) (calls : List CallRecord)
    (env : Env) (payload : WebhookPayload) :
    (∀ stC stD stM stU : Nat,
      ReachesGuard cfg env payload →
      findExistingCallByZoomMeetingId calls (zmidOf payload) = none →
      env.assocContactsResult = .ok stC →
      env.assocDealsResult = .ok stD →
      env.assocMeetingDealsResult = .ok stM →
      env.updateDealStageResult = .ok stU →
      ((zoomRecordingWebhook cfg calls env payload).1).isOk = true) ∧
    (∀ (c0 : String) (cs : List String),
      ReachesGuard cfg env payload →
      findExistingCallByZoomMeetingId calls (zmidOf payload) = none →
      env.contactIds = c0 :: cs →
      env.assocContactsResult = .error →
      ∃ props, zoomRecordingWebhook cfg calls env payload =
          (.unhandledException, [Effect.createCall env.newCallId props]) ∧
        props.zoom_meeting_id = zmidOf payload) := by
  constructor
  · intro stC stD stM stU hg hf hC hD hM hU
    obtain ⟨hev, hz, hchOk, hsec, hmOk⟩ := hg
    obtain ⟨chosen, hch, hid⟩ := chosenOk_elim env hchOk
    obtain ⟨meeting, hm, hty⟩ := meetingOk_elim env hmOk
    obtain ⟨uid, ustage, e3, hph⟩ :=
      dealStagePhase_ok_exists env env.newCallId meeting.id stD stM stU hD hM hU
    have hac : associateCallToContacts env.assocContactsResult env.newCallId
        env.contactIds = .ok (assocCallContactsEffects env.newCallId env.contactIds) := by
      rw [hC]
      exact assocContacts_ok stC _ _
    have had : associateCallToDeals env.assocDealsResult env.newCallId
        env.dealIds = .ok (assocCallDealsEffects env.newCallId env.dealIds) := by
      rw [hD]
      exact assocDeals_ok stD _ _
    rw [handler_main_ok cfg calls env payload chosen meeting _ _ e3 uid ustage
      hev hz hch hid hsec hm hty hf hac had hph]
    rfl
  · intro c0 cs hg hf hcid herr
    obtain ⟨hev, hz, hchOk, hsec, hmOk⟩ := hg
    obtain ⟨chosen, hch, hid⟩ := chosenOk_elim env hchOk
    obtain ⟨meeting, hm, hty⟩ := meetingOk_elim env hmOk
    have hac : associateCallToContacts env.assocContactsResult env.newCallId
        env.contactIds = .error := by
      rw [hcid]
      simp [associateCallToContacts, herr]
    refine ⟨mainCallProps cfg env payload chosen meeting, ?_, ?_⟩
    · exact handler_raised_contacts cfg calls env payload chosen meeting hev hz
        hch hid hsec hm hty hf hac
    · simp [mainCallProps, createCallProps]

/-- Witness for C2 (amended): with every caught collaborator raising and
every write POST returning HTTP 500 the delivery still reports success;
with the contact-association POST raising instead, the delivery aborts as
an unhandled exception after creating the call record for session id
"555". -/
theorem C2_amended_advisory_failures_witness :
    (envFailW.participantsApi = .error ∧
      envFailW.latestMeetingDealResult = .error ∧
      envFailW.markCompletedResult = .error ∧
      envFailW.assocContactsResult = .ok 500 ∧
      ((zoomRecordingWebhook cfgW [] envFailW payloadW).1).isOk = true) ∧
    (envRaiseW.assocContactsResult = .error ∧
      ∃ props, zoomRecordingWebhook cfgW [] envRaiseW payloadW =
          (.unhandledException, [Effect.createCall (some "call-1") props]) ∧
        props.zoom_meeting_id = "555") := by
  constructor
  · refine ⟨rfl, rfl, rfl, rfl, ?_⟩
    exact (C2_amended_advisory_failures cfgW [] envFailW payloadW).1 500 500
      500 500 (by decide) rfl rfl rfl rfl rfl
  · refine ⟨rfl, ?_⟩
    exact (C2_amended_advisory_failures cfgW [] envRaiseW payloadW).2 "c1" []
      (by decide) rfl rfl rfl

theorem applyEffects_no_creates (calls : List CallRecord) (e : List Effect)
    (h : countCreates e = 0) : applyEffects calls e = calls := by
  induction e generalizing calls with
  | nil => rfl
  | cons x t ih =>
    cases x
    case createCall a p =>
      exfalso
      unfold countCreates at h
      simp [List.filter_cons, Effect.isCreate] at h
    all_goals
      have ht : countCreates t = 0 := by
        unfold countCreates at h ⊢
        simpa [List.filter_cons, Effect.isCreate] using h
    all_goals exact ih _ ht

theorem applyEffects_create_head (calls : List CallRecord) (a : Option String)
    (p : CallProps) (rest : List Effect) (h : countCreates rest = 0) :
    applyEffects calls (Effect.createCall a p :: rest) = calls ++ [⟨a, p⟩] := by
  show applyEffects (calls ++ [⟨a, p⟩]) rest = calls ++ [⟨a, p⟩]
  exact applyEffects_no_creates _ _ h

theorem mainCallProps_zmid (cfg : Config) (env : Env)
    (payload : WebhookPayload) (chosen : RecordingFile) (meeting : Meeting) :
    (mainCallProps cfg env payload chosen meeting).zoom_meeting_id =
      zmidOf payload := by
  simp [mainCallProps, createCallProps]

theorem handler_one_create (cfg : Config) (calls : List CallRecord)
    (env : Env) (payload : WebhookPayload) (chosen : RecordingFile)
    (meeting : Meeting)
    (hev : payload.event = some "recording.completed")
    (hz : zmidOf payload ≠ "")
    (hch : chooseMediaRecordingFile env.recordingFiles = some chosen)
    (hid : pyTruthy chosen.id = true)
    (hsec : cfg.mediaProxySecret ≠ "")
    (hm : env.searchMeeting = some meeting)
    (hty : pyTruthy meeting.hs_activity_type = true)
    (hfind : findExistingCallByZoomMeetingId calls (zmidOf payload) = none) :
    ∃ tail, (zoomRecordingWebhook cfg calls env payload).2 =
        Effect.createCall env.newCallId
          (mainCallProps cfg env payload chosen meeting) :: tail ∧
      countCreates tail = 0 := by
  cases hac : associateCallToContacts env.assocContactsResult env.newCallId
      env.contactIds with
  | error =>
    rw [handler_raised_contacts cfg calls env payload chosen meeting hev hz
      hch hid hsec hm hty hfind hac]
    exact ⟨[], rfl, rfl⟩
  | ok e1 =>
    have he1 := assocContacts_ok_shape _ _ _ _ hac
    subst he1
    cases had : associateCallToDeals env.assocDealsResult env.newCallId
        env.dealIds with
    | error =>
      rw [handler_raised_deals cfg calls env payload chosen meeting _ hev hz
        hch hid hsec hm hty hfind hac had]
      exact ⟨_, rfl, countCreates_assocContactsEffects _ _⟩
    | ok e2 =>
      have he2 := assocDeals_ok_shape _ _ _ _ had
      subst he2
      have h3 : countCreates (stageEffects
          (dealStagePhase env env.newCallId meeting.id)) = 0 :=
        countCreates_stageEffects env env.newCallId meeting.id
      cases hph : dealStagePhase env env.newCallId meeting.id with
      | raised e3 =>
        rw [hph] at h3
        rw [handler_raised_phase cfg calls env payload chosen meeting _ _ _
          hev hz hch hid hsec hm hty hfind hac had hph]
        refine ⟨_, rfl, ?_⟩
        show countCreates ((assocCallContactsEffects env.newCallId
          env.contactIds ++ assocCallDealsEffects env.newCallId env.dealIds) ++
          e3) = 0
        rw [countCreates_append, countCreates_append,
          countCreates_assocContactsEffects, countCreates_assocDealsEffects]
        simpa [stageEffects] using h3
      | ok uid ustage e3 =>
        rw [hph] at h3
        rw [handler_main_ok cfg calls env payload chosen meeting _ _ _ uid
          ustage hev hz hch hid hsec hm hty hfind hac had hph]
        refine ⟨_, rfl, ?_⟩
        show countCreates (((assocCallContactsEffects env.newCallId
          env.contactIds ++ assocCallDealsEffects env.newCallId env.dealIds) ++
          e3) ++ markMeetingCompleted env.markCompletedResult meeting.id) = 0
        rw [countCreates_append, countCreates_append, countCreates_append,
          countCreates_assocContactsEffects, countCreates_assocDealsEffects,
          countCreates_mark]
        simpa [stageEffects] using h3

/-- Claim C1: the idempotency guard.  If the CRM already holds a call
record tagged with the delivery's Zoom session id, the handler
short-circuits to a duplicate-ignored response with no CRM writes; if it
holds none, the delivery creates exactly one call record, and re-delivering
the same event against the resulting CRM state short-circuits with no
writes at all. -/
theorem C1_idempotency_guard (cfg : Config) (calls : List CallRecord)
    (env : Env) (payload : WebhookPayload) :
    (∀ c, ReachesGuard cfg env payload →
      findExistingCallByZoomMeetingId calls (zmidOf payload) = some c →
      zoomRecordingWebhook cfg calls env payload = (.duplicateIgnored c.id, [])) ∧
    (ReachesGuard cfg env payload →
      findExistingCallByZoomMeetingId calls (zmidOf payload) = none →
      countCreates (zoomRecordingWebhook cfg calls env payload).2 = 1 ∧
      zoomRecordingWebhook cfg
          (applyEffects calls (zoomRecordingWebhook cfg calls env payload).2)
          env payload =
        (.duplicateIgnored env.newCallId, [])) := by
  constructor
  · intro c hg hf
    obtain ⟨hev, hz, hchOk, hsec, hmOk⟩ := hg
    obtain ⟨chosen, hch, hid⟩ := chosenOk_elim env hchOk
    obtain ⟨meeting, hm, hty⟩ := meetingOk_elim env hmOk
    exact handler_dup cfg calls env payload chosen meeting c hev hz hch hid
      hsec hm hty hf
  · intro hg hf
    obtain ⟨hev, hz, hchOk, hsec, hmOk⟩ := hg
    obtain ⟨chosen, hch, hid⟩ := chosenOk_elim env hchOk
    obtain ⟨meeting, hm, hty⟩ := meetingOk_elim env hmOk
    obtain ⟨tail, heff, htail⟩ := handler_one_create cfg calls env payload
      chosen meeting hev hz hch hid hsec hm hty hf
    constructor
    · rw [heff]
      exact countCreates_cons_create _ _ _ htail
    · rw [heff, applyEffects_create_head calls _ _ _ htail]
    -- remaining: second delivery over the grown call store
      have hfind2 : findExistingCallByZoomMeetingId
          (calls ++ [⟨env.newCallId, mainCallProps cfg env payload chosen meeting⟩])
          (zmidOf payload) =
          some ⟨env.newCallId, mainCallProps cfg env payload chosen meeting⟩ := by
        unfold findExistingCallByZoomMeetingId at hf ⊢
        rw [List.find?_append, hf]
        simp [mainCallProps_zmid]
      exact handler_dup cfg _ env payload chosen meeting _ hev hz hch hid
        hsec hm hty hfind2

/-- Witness for C1: with a pre-existing record for session id "555" the
delivery is ignored with no effects; over an empty call store the delivery
creates exactly one record and its re-delivery is then ignored. -/
theorem C1_idempotency_guard_witness :
    ReachesGuard cfgW envW payloadW ∧
    findExistingCallByZoomMeetingId [callRecordW] (zmidOf payloadW) =
      some callRecordW ∧
    zoomRecordingWebhook cfgW [callRecordW] envW payloadW =
      (.duplicateIgnored (some "call-0"), []) ∧
    findExistingCallByZoomMeetingId [] (zmidOf payloadW) = none ∧
    countCreates (zoomRecordingWebhook cfgW [] envW payloadW).2 = 1 ∧
    zoomRecordingWebhook cfgW
        (applyEffects [] (zoomRecordingWebhook cfgW [] envW payloadW).2)
        envW payloadW =
      (.duplicateIgnored (some "call-1"), []) := by
  have hg : ReachesGuard cfgW envW payloadW := by decide
  have h1 := (C1_idempotency_guard cfgW [callRecordW] envW payloadW).1
    callRecordW hg (by decide)
  have h2 := (C1_idempotency_guard cfgW [] envW payloadW).2 hg (by decide)
  exact ⟨hg, by decide, h1, by decide, h2.1, h2.2⟩

/-- Claim C5: contact-fallback deal flow after successful write POSTs.
When no deal is associated with the meeting directly but the contact
fallback yields one, and each association/stage-update POST returns (with
any HTTP status), the delivery's CRM write list consists of, in order: the
call creation, the call-to-contacts and call-to-deals associations, the
compensating call-to-deal and meeting-to-deal associations for the
fallback deal, a stage update to Follow-up exactly when the fallback
deal's stage is Qualified or Closed-Lost, and the meeting completion mark
(first conjunct).  On the direct path the compensating associations are
absent and the update fires exactly for Qualified (second conjunct). -/
theorem C5_contact_fallback_deal_flow (cfg : Config) (calls : List CallRecord)
    (env : Env) (payload : WebhookPayload) (chosen : RecordingFile)
    (meeting : Meeting) (stC stD stM stU : Nat)
    (hev : payload.event = some "recording.completed")
    (hz : zmidOf payload ≠ "")
    (hch : chooseMediaRecordingFile env.recordingFiles = some chosen)
    (hid : pyTruthy chosen.id = true)
    (hsec : cfg.mediaProxySecret ≠ "")
    (hm : env.searchMeeting = some meeting)
    (hty : pyTruthy meeting.hs_activity_type = true)
    (hfind : findExistingCallByZoomMeetingId calls (zmidOf payload) = none)
    (hC : env.assocContactsResult = .ok stC)
    (hD : env.assocDealsResult = .ok stD)
    (hM : env.assocMeetingDealsResult = .ok stM)
    (hU : env.updateDealStageResult = .ok stU) :
    (∀ d, caughtDeal env.latestMeetingDealResult = none →
      caughtDeal env.contactDealResult = some d →
      (zoomRecordingWebhook cfg calls env payload).2 =
        [Effect.createCall env.newCallId (createCallProps meeting
            meeting.hs_activity_type
            (buildProxyUrl cfg (zmidOf payload) (pyOrStr chosen.id "")
              (env.now + 7 * 24 * 60 * 60))
            (zmidOf payload) payload.obj.uuid env.startEpochMs
            (extractDurationMs payload.obj.duration)
            (dispositionPhase payload.obj.uuid env.participantsApi).1
            (match env.contactIds with
             | [] => none
             | _ :: _ => caughtName env.contactNameResult))] ++
        assocCallContactsEffects env.newCallId env.contactIds ++
        assocCallDealsEffects env.newCallId env.dealIds ++
        ([Effect.associateCallToDeals env.newCallId [pyOrStr d.id ""],
          Effect.associateMeetingToDeals meeting.id [pyOrStr d.id ""]] ++
         (if stageFromDeal (some d) = some DEAL_STAGE_QUALIFIED ∨
             stageFromDeal (some d) = some DEAL_STAGE_CLOSED_LOST then
           [Effect.updateDealStage (pyOrStr d.id "") DEAL_STAGE_FOLLOWUP]
         else [])) ++
        markMeetingCompleted env.markCompletedResult meeting.id) ∧
    (∀ d, caughtDeal env.latestMeetingDealResult = some d →
      (zoomRecordingWebhook cfg calls env payload).2 =
        [Effect.createCall env.newCallId (createCallProps meeting
            meeting.hs_activity_type
            (buildProxyUrl cfg (zmidOf payload) (pyOrStr chosen.id "")
              (env.now + 7 * 24 * 60 * 60))
            (zmidOf payload) payload.obj.uuid env.startEpochMs
            (extractDurationMs payload.obj.duration)
            (dispositionPhase payload.obj.uuid env.participantsApi).1
            (match env.contactIds with
             | [] => none
             | _ :: _ => caughtName env.contactNameResult))] ++
        assocCallContactsEffects env.newCallId env.contactIds ++
        assocCallDealsEffects env.newCallId env.dealIds ++
        (if stageFromDeal (some d) = some DEAL_STAGE_QUALIFIED then
          [Effect.updateDealStage (pyOrStr d.id "") DEAL_STAGE_FOLLOWUP]
        else []) ++
        markMeetingCompleted env.markCompletedResult meeting.id) := by
  have hac : associateCallToContacts env.assocContactsResult env.newCallId
      env.contactIds = .ok (assocCallContactsEffects env.newCallId
        env.contactIds) := by
    rw [hC]
    exact assocContacts_ok stC _ _
  have had : associateCallToDeals env.assocDealsResult env.newCallId
      env.dealIds = .ok (assocCallDealsEffects env.newCallId env.dealIds) := by
    rw [hD]
    exact assocDeals_ok stD _ _
  constructor
  · intro d hd1 hd2
    obtain ⟨uid, ustage, hph⟩ := dealStagePhase_fallback_ok env env.newCallId
      meeting.id d stD stM stU hd1 hd2 hD hM hU
    rw [handler_main_ok cfg calls env payload chosen meeting _ _ _ uid ustage
      hev hz hch hid hsec hm hty hfind hac had hph]
    rfl
  · intro d hd1
    obtain ⟨uid, ustage, hph⟩ := dealStagePhase_direct_ok env env.newCallId
      meeting.id d stU hd1 hU
    rw [handler_main_ok cfg calls env payload chosen meeting _ _ _ uid ustage
      hev hz hch hid hsec hm hty hfind hac had hph]
    rfl

/-- Witness for C5: envFallbackW has no direct deal and a Closed-Lost
contact-fallback deal, and its write POSTs all return 204; the delivery's
write list follows the claimed order with a stage update to Follow-up. -/
theorem C5_contact_fallback_deal_flow_witness :
    caughtDeal envFallbackW.latestMeetingDealResult = none ∧
    caughtDeal envFallbackW.contactDealResult = some dealClosedLostW ∧
    envFallbackW.assocContactsResult = .ok 204 ∧
    (zoomRecordingWebhook cfgW [] envFallbackW payloadW).2 =
      [Effect.createCall (some "call-1") (createCallProps meetingW
          meetingW.hs_activity_type
          (buildProxyUrl cfgW (zmidOf payloadW) (pyOrStr fM4aAudioW.id "")
            (envFallbackW.now + 7 * 24 * 60 * 60))
          (zmidOf payloadW) payloadW.obj.uuid envFallbackW.startEpochMs
          (extractDurationMs payloadW.obj.duration)
          (dispositionPhase payloadW.obj.uuid envFallbackW.participantsApi).1
          (match envFallbackW.contactIds with
           | [] => none
           | _ :: _ => caughtName envFallbackW.contactNameResult))] ++
      assocCallContactsEffects (some "call-1") envFallbackW.contactIds ++
      assocCallDealsEffects (some "call-1") envFallbackW.dealIds ++
      ([Effect.associateCallToDeals (some "call-1") [pyOrStr dealClosedLostW.id ""],
        Effect.associateMeetingToDeals meetingW.id [pyOrStr dealClosedLostW.id ""]] ++
       (if stageFromDeal (some dealClosedLostW) = some DEAL_STAGE_QUALIFIED ∨
           stageFromDeal (some dealClosedLostW) = some DEAL_STAGE_CLOSED_LOST then
         [Effect.updateDealStage (pyOrStr dealClosedLostW.id "") DEAL_STAGE_FOLLOWUP]
       else [])) ++
      markMeetingCompleted envFallbackW.markCompletedResult meetingW.id := by
  refine ⟨rfl, rfl, rfl, ?_⟩
  exact (C5_contact_fallback_deal_flow cfgW [] envFallbackW payloadW fM4aAudioW
    meetingW 204 204 204 204 rfl (by decide) rfl (by decide) (by decide) rfl
    (by decide) rfl rfl rfl rfl rfl).1 dealClosedLostW rfl rfl

/-- Claim C8 counterexample: a 404 participant lookup does not default the
disposition to connected — get_participant_count turns the 404 into a
participant count of 1, so the created call is marked no-answer. -/
theorem C8_counterexample :
    envNotFoundW.participantsApi = .ok { status := 404, participants := [] } ∧
    (zoomRecordingWebhook cfgW [] envNotFoundW payloadW).1 =
      .ok (some "call-1") (some 1) DISPOSITION_NO_ANSWER ["c1"] [] none none ∧
    DISPOSITION_NO_ANSWER ≠ DISPOSITION_CONNECTED := by
  refine ⟨rfl, ?_, by decide⟩
  decide

/-- Claim C8 (amended): with a truthy session uuid, a raised participant
lookup (token/transport error, or a non-404 error status that
raise_for_status turns into an exception) leaves the disposition at the
connected default with no count recorded; a 404 lookup is treated as
participant count 1 and therefore yields no-answer; a successful lookup
records the count of distinct (display name, account email) pairs and
yields no-answer exactly when that count is at most 1.  A lookup failure
never prevents the webhook from completing with its success summary,
provided the uncaught write POSTs themselves return. -/
theorem C8_amended_disposition (uuid : Option String)
    (api : Fallible ParticipantsResponse) (huuid : pyTruthy uuid = true) :
    (api = .error →
      dispositionPhase uuid api = (DISPOSITION_CONNECTED, none)) ∧
    (∀ r, api = .ok r → r.status = 404 →
      dispositionPhase uuid api = (DISPOSITION_NO_ANSWER, some 1)) ∧
    (∀ r, api = .ok r → r.status ≠ 404 → 400 ≤ r.status →
      dispositionPhase uuid api = (DISPOSITION_CONNECTED, none)) ∧
    (∀ r, api = .ok r → r.status < 400 →
      (dispositionPhase uuid api).2 = some (countUniqueParticipants r.participants) ∧
      ((dispositionPhase uuid api).1 = DISPOSITION_NO_ANSWER ↔
        countUniqueParticipants r.participants ≤ 1)) ∧
    (∀ (cfg : Config) (calls : List CallRecord) (env : Env)
        (payload : WebhookPayload) (stC stD stM stU : Nat),
      ReachesGuard cfg env payload →
      findExistingCallByZoomMeetingId calls (zmidOf payload) = none →
      env.assocContactsResult = .ok stC →
      env.assocDealsResult = .ok stD →
      env.assocMeetingDealsResult = .ok stM →
      env.updateDealStageResult = .ok stU →
      env.participantsApi = .error →
      ((zoomRecordingWebhook cfg calls env payload).1).isOk = true) := by
  refine ⟨?_, ?_, ?_, ?_, ?_⟩
  · intro h
    subst h
    simp [dispositionPhase, huuid, getParticipantCount]
  · intro r h h404
    subst h
    simp [dispositionPhase, huuid, getParticipantCount, h404]
  · intro r h h404 herr
    subst h
    simp [dispositionPhase, huuid, getParticipantCount, h404, herr]
  · intro r h hst
    subst h
    have h404 : r.status ≠ 404 := by omega
    have herr : ¬400 ≤ r.status := by omega
    constructor
    · simp [dispositionPhase, huuid, getParticipantCount, h404, herr]
    · by_cases hn : countUniqueParticipants r.participants ≤ 1
      · simp [dispositionPhase, huuid, getParticipantCount, h404, herr, hn]
      · simp [dispositionPhase, huuid, getParticipantCount, h404, herr, hn]
        decide
  · intro cfg calls env payload stC stD stM stU hg hf hC hD hM hU _
    obtain ⟨hev, hz, hchOk, hsec, hmOk⟩ := hg
    obtain ⟨chosen, hch, hid⟩ := chosenOk_elim env hchOk
    obtain ⟨meeting, hm, hty⟩ := meetingOk_elim env hmOk
    obtain ⟨uid, ustage, e3, hph⟩ :=
      dealStagePhase_ok_exists env env.newCallId meeting.id stD stM stU hD hM hU
    have hac : associateCallToContacts env.assocContactsResult env.newCallId
        env.contactIds = .ok (assocCallContactsEffects env.newCallId
          env.contactIds) := by
      rw [hC]
      exact assocContacts_ok stC _ _
    have had : associateCallToDeals env.assocDealsResult env.newCallId
        env.dealIds = .ok (assocCallDealsEffects env.newCallId env.dealIds) := by
      rw [hD]
      exact assocDeals_ok stD _ _
    rw [handler_main_ok cfg calls env payload chosen meeting _ _ e3 uid ustage
      hev hz hch hid hsec hm hty hf hac had hph]
    rfl

/-- Witness for C8 (amended) at concrete lookups: an error, a 404, an error
status, and a successful two-participant listing; and the raised lookup
inside envFailW (whose write POSTs all return HTTP 500) still completes. -/
theorem C8_amended_disposition_witness :
    dispositionPhase (some "u") .error = (DISPOSITION_CONNECTED, none) ∧
    dispositionPhase (some "u") (.ok { status := 404, participants := [] }) =
      (DISPOSITION_NO_ANSWER, some 1) ∧
    dispositionPhase (some "u") (.ok { status := 500, participants := [] }) =
      (DISPOSITION_CONNECTED, none) ∧
    (dispositionPhase (some "u") (.ok { status := 200, participants :=
      [{ name := some "A", user_email := some "a@x" },
       { name := some "B", user_email := some "b@x" }] })).2 = some 2 ∧
    ((zoomRecordingWebhook cfgW [] envFailW payloadW).1).isOk = true := by
  refine ⟨?_, ?_, ?_, ?_, ?_⟩
  · exact (C8_amended_disposition (some "u") .error (by decide)).1 rfl
  · exact (C8_amended_disposition (some "u")
      (.ok { status := 404, participants := [] }) (by decide)).2.1 _ rfl rfl
  · exact (C8_amended_disposition (some "u")
      (.ok { status := 500, participants := [] }) (by decide)).2.2.1 _ rfl
      (by decide) (by decide)
  · have h := (C8_amended_disposition (some "u")
      (.ok { status := 200, participants :=
        [{ name := some "A", user_email := some "a@x" },
         { name := some "B", user_email := some "b@x" }] }) (by decide)).2.2.2.1
      _ rfl (by decide)
    rw [h.1]
    decide
  · exact (C8_amended_disposition (some "u") .error (by decide)).2.2.2.2 cfgW []
      envFailW payloadW 500 500 500 500 (by decide) rfl rfl rfl rfl rfl rfl
